import Mathlib

/-!
Verification of the validator-directory lifecycle of
src/validator_client/src/validator_directory.rs.

The Rust module is embedded shallowly:

* machine bytes are Nat values (with explicit bounds where they matter);
* a file-system path is the list of its component names, each component
  being the UTF-8 bytes of the name; every path in the source is absolute
  (directories live under a caller-supplied base such as
  ~/.lighthouse/validators/), so joining two paths follows the Rust
  PathBuf::join convention that an absolute right-hand side replaces the
  left-hand side;
* the file system is an explicit state value: an association list of
  files (newest entry first), the set of created directories, and a
  chronological event trace recording every create/chmod/write effect,
  so that ordering of effects (permission hardening before secret bytes
  are written) is provable;
* fallible stateful operations return an Except paired with the file
  system after the call, so that a guard failure provably leaves the
  state untouched;
* collaborators the module uses but does not define (the BLS scheme, the
  SSZ codec for keypairs, the deposit-transaction encoder, and the
  sqlite-backed slashing-protection store) are modelled from the spec as
  executable definitions, each marked in its doc comment.
-/

/-- A byte string: each element is intended to lie below 256. -/
abbrev Bytes := List Nat

/-- An absolute file-system path, as the list of its component names
(each component the UTF-8 bytes of the name). -/
abbrev FsPath := List Bytes

/-- UTF-8 bytes of a string literal (all names in the source are ASCII). -/
def strBytes (s : String) : Bytes :=
  s.toList.map Char.toNat

/-- Every element of the list is a byte value. -/
def validBytes (bs : Bytes) : Prop :=
  ∀ b ∈ bs, b < 256

instance (bs : Bytes) : Decidable (validBytes bs) :=
  List.decidableBAll _ bs

/-! ### Hex encoding (the hex crate)

hex::encode writes each byte as two lowercase hex digits; hex::decode
accepts upper- and lowercase digits and fails on any other character or
on odd length. Modelled at the level of ASCII byte values. -/

/-- ASCII code of the lowercase hex digit for a value below 16. -/
def hexDigitChar (n : Nat) : Nat :=
  if n < 10 then 48 + n else 87 + n

/-- hex::encode on bytes, producing the ASCII bytes of the hex string. -/
def hexEncode : Bytes → Bytes
  | [] => []
  | b :: t => hexDigitChar (b / 16) :: hexDigitChar (b % 16) :: hexEncode t

/-- Value of one ASCII hex digit (0-9, a-f, A-F), none otherwise. -/
def hexDigitVal (c : Nat) : Option Nat :=
  if 48 ≤ c ∧ c ≤ 57 then some (c - 48)
  else if 97 ≤ c ∧ c ≤ 102 then some (c - 87)
  else if 65 ≤ c ∧ c ≤ 70 then some (c - 55)
  else none

/-- hex::decode on the ASCII bytes of a hex string. -/
def hexDecode : Bytes → Option Bytes
  | [] => some []
  | [_] => none
  | c1 :: c2 :: t =>
    match hexDigitVal c1, hexDigitVal c2, hexDecode t with
    | some h, some l, some r => some ((h * 16 + l) :: r)
    | _, _, _ => none

/-! ### Keys and their SSZ persistence format

The BLS types PublicKey, SecretKey, Keypair and the SSZ codec come from
the bls and ssz crates. In the bls wrapper of the source both the public key
and the (padded) secret key serialize to 48 bytes, and the derived SSZ
codec for the two-field SszEncodableKeypair struct is plain
concatenation, so decoding demands exactly 96 bytes. -/

/-- A BLS public key, identified with its 48 serialized bytes. -/
structure PublicKey where
  bytes : Bytes

deriving DecidableEq

/-- A BLS secret key, identified with its 48 serialized bytes. -/
structure SecretKey where
  bytes : Bytes

deriving DecidableEq

/-- A BLS keypair. -/
structure Keypair where
  pk : PublicKey
  sk : SecretKey

deriving DecidableEq

/-- Well-formedness of a keypair: both halves have their serialized
length and hold byte values. -/
def Keypair.wf (kp : Keypair) : Prop :=
  kp.pk.bytes.length = 48 ∧ kp.sk.bytes.length = 48 ∧
    validBytes kp.pk.bytes ∧ validBytes kp.sk.bytes

instance (kp : Keypair) : Decidable kp.wf := by
  unfold Keypair.wf
  infer_instance

/-- PublicKey::as_ssz_bytes. -/
def PublicKey.as_ssz_bytes (pk : PublicKey) : Bytes :=
  pk.bytes

/-- The helper struct allowing SSZ enc/dec for a Keypair. -/
structure SszEncodableKeypair where
  pk : PublicKey
  sk : SecretKey

deriving DecidableEq

/-- SszEncodableKeypair::from(kp). -/
def SszEncodableKeypair.ofKeypair (kp : Keypair) : SszEncodableKeypair :=
  { pk := kp.pk, sk := kp.sk }

/-- Into<Keypair> for SszEncodableKeypair. -/
def SszEncodableKeypair.toKeypair (s : SszEncodableKeypair) : Keypair :=
  { pk := s.pk, sk := s.sk }

/-- SszEncodableKeypair::as_ssz_bytes: concatenation of the two
fixed-length fields. -/
def SszEncodableKeypair.as_ssz_bytes (s : SszEncodableKeypair) : Bytes :=
  s.pk.bytes ++ s.sk.bytes

/-- SszEncodableKeypair::from_ssz_bytes: exactly 96 bytes, split 48/48. -/
def SszEncodableKeypair.from_ssz_bytes (bs : Bytes) : Option SszEncodableKeypair :=
  if bs.length = 96 then some { pk := ⟨bs.take 48⟩, sk := ⟨bs.drop 48⟩ } else none

/-! ### File and directory names -/

/-- Source constant VOTING_KEY_PREFIX (renamed: Lean reserves names ending
in the word after the underscore). -/
def VOTING_KEY_TAG : Bytes := strBytes ("voting")

/-- Source constant WITHDRAWAL_KEY_PREFIX (renamed as above). -/
def WITHDRAWAL_KEY_TAG : Bytes := strBytes ("withdrawal")

/-- Source constant ETH1_DEPOSIT_DATA_FILE. -/
def ETH1_DEPOSIT_DATA_FILE : Bytes := strBytes ("eth1_deposit_data.rlp")

/-- Source constant ATTESTER_SLASHING_DB. -/
def ATTESTER_SLASHING_DB : Bytes := strBytes ("attester_slashing_protection.sqlite")

/-- Source constant BLOCK_PRODUCER_SLASHING_DB. -/
def BLOCK_PRODUCER_SLASHING_DB : Bytes := strBytes ("block_producer_slashing_protection.sqlite")

/-- keypair_file: filename of a keypair file for a given prefix tag. -/
def keypair_file (fileTag : Bytes) : Bytes :=
  fileTag ++ strBytes ("_keypair")

/-- dir_name: folder name for a validator with the given voting key,
0x followed by the hex of the SSZ public-key bytes. -/
def dir_name (voting_pubkey : PublicKey) : Bytes :=
  strBytes ("0x") ++ hexEncode voting_pubkey.as_ssz_bytes

/-- PathBuf::join with a plain file or directory name. -/
def FsPath.joinName (p : FsPath) (name : Bytes) : FsPath :=
  p ++ [name]

/-- PathBuf::join with another path. In the source this happens once,
with an absolute right-hand side, and the Rust join then discards the
left-hand side; all paths of this embedding are absolute. -/
def FsPath.joinPath (_p q : FsPath) : FsPath :=
  q

/-! ### External collaborators modelled from the spec -/

/-- The chain specification; only the two fields this module reads. -/
structure ChainSpec where
  max_effective_balance : Nat
  bls_withdrawal_prefix_byte : Nat

deriving DecidableEq

/-- Little-endian bytes of a value, at a fixed width. -/
def natToLeBytes : Nat → Nat → Bytes
  | 0, _ => []
  | w + 1, v => v % 256 :: natToLeBytes w (v / 256)

/-- Truncate or zero-pad a byte string to an exact length. -/
def padTo (n : Nat) (bs : Bytes) : Bytes :=
  (bs ++ List.replicate n 0).take n

/-- Modelled from the spec: withdrawal-credential derivation, an external
signature-scheme service. A deterministic 32-byte digest of the
withdrawal public key, whose first byte is the configured prefix byte. -/
def get_withdrawal_credentials (pk : PublicKey) (tagByte : Nat) : Bytes :=
  tagByte % 256 :: padTo 31 (pk.bytes.map (fun b => b % 256))

/-- Modelled from the spec: Signature::empty_signature of the external
signature scheme, 96 zero bytes. -/
def emptySignatureBytes : Bytes :=
  List.replicate 96 0

/-- The deposit-transaction record assembled before encoding. -/
structure DepositData where
  pubkey : Bytes
  withdrawal_credentials : Bytes
  amount : Nat
  signature : Bytes

deriving DecidableEq

/-- Modelled from the spec: DepositData::create_signature, an external
signature-scheme service; a deterministic 96-byte digest of the secret
key and the signed fields. -/
def DepositData.create_signature (d : DepositData) (sk : SecretKey) (_spec : ChainSpec) : Bytes :=
  padTo 96 ((sk.bytes ++ d.pubkey ++ natToLeBytes 8 d.amount).map (fun b => b % 256))

/-- Modelled from the spec: encode_eth1_tx_data, the external
deposit-transaction payload encoder: a fallible byte encoding of the
deposit record (the model encoding is total and concatenates the
fields). -/
def encode_eth1_tx_data (d : DepositData) : Option Bytes :=
  some (d.pubkey.map (fun b => b % 256) ++ d.withdrawal_credentials.map (fun b => b % 256)
    ++ natToLeBytes 8 d.amount ++ d.signature.map (fun b => b % 256))

/-- Modelled from the spec: types::test_utils::generate_deterministic_keypair,
the external deterministic (insecure) key derivation from an index. -/
def generate_deterministic_keypair (index : Nat) : Keypair :=
  { pk := ⟨natToLeBytes 48 index⟩, sk := ⟨natToLeBytes 48 (index + 1)⟩ }

/-! ### The file system state -/

/-- Contents of a file: either plain bytes, or a slashing-protection
sqlite store, treated opaquely apart from the slots-per-epoch parameter
it records (modelled from the spec: the store is an external keyed
history service). -/
inductive FileData
  | bytes (bs : Bytes)
  | slashingDB (storedSlotsPerEpoch : Option Nat)

deriving DecidableEq

/-- A file together with its permission mode bits. -/
structure FileEntry where
  data : FileData
  mode : Nat

deriving DecidableEq

/-- One observable file-system effect, in chronological order. -/
inductive FSEvent
  | mkdir (p : FsPath)
  | create (p : FsPath)
  | chmod (p : FsPath) (mode : Nat)
  | write (p : FsPath) (d : FileData)

deriving DecidableEq

/-- The file-system state: files (newest association first), created
directories, and the chronological event trace. -/
structure FS where
  files : List (FsPath × FileEntry)
  dirs : List FsPath
  events : List FSEvent

deriving DecidableEq

/-- The empty file system. -/
def FS.empty : FS :=
  { files := [], dirs := [], events := [] }

/-- Look a path up among the files (newest entry wins). -/
def lookupFile : List (FsPath × FileEntry) → FsPath → Option FileEntry
  | [], _ => none
  | (q, e) :: t, p => if q = p then some e else lookupFile t p

/-- Membership of a path in a list of directory paths. -/
def pathMem (p : FsPath) : List FsPath → Bool
  | [] => false
  | q :: t => if q = p then true else pathMem p t

/-- Path::exists — true when the path names a file or a directory. -/
def FS.pathExists (fs : FS) (p : FsPath) : Bool :=
  (lookupFile fs.files p).isSome || pathMem p fs.dirs

/-- libc::S_IRUSR — owner read permission bit. -/
def S_IRUSR : Nat := 0o400

/-- libc::S_IWUSR — owner write permission bit. -/
def S_IWUSR : Nat := 0o200

/-- The mode a freshly created file receives before any chmod (0666
masked by the conventional umask 022). -/
def defaultFileMode : Nat := 0o644

/-- fs::create_dir_all. -/
def FS.mkdirAll (fs : FS) (p : FsPath) : FS :=
  { fs with dirs := p :: fs.dirs, events := fs.events ++ [FSEvent.mkdir p] }

/-- Creation of a file with given initial data and mode (File::create
uses empty bytes and the default mode; the store service creates its
sqlite file). Truncates any previous entry at the path. -/
def FS.createFileData (fs : FS) (p : FsPath) (d : FileData) (mode : Nat) : FS :=
  { fs with files := (p, { data := d, mode := mode }) :: fs.files,
            events := fs.events ++ [FSEvent.create p] }

/-- File::create — an empty file with the default mode. -/
def FS.createFile (fs : FS) (p : FsPath) : FS :=
  fs.createFileData p (FileData.bytes []) defaultFileMode

/-- File::set_permissions — replace the mode bits of a file. -/
def FS.chmod (fs : FS) (p : FsPath) (mode : Nat) : FS :=
  match lookupFile fs.files p with
  | some e =>
    { fs with files := (p, { e with mode := mode }) :: fs.files,
              events := fs.events ++ [FSEvent.chmod p mode] }
  | none => fs

/-- write_all — replace the data of a file, keeping its mode. -/
def FS.writeAll (fs : FS) (p : FsPath) (d : FileData) : FS :=
  match lookupFile fs.files p with
  | some e =>
    { fs with files := (p, { e with data := d }) :: fs.files,
              events := fs.events ++ [FSEvent.write p d] }
  | none => fs

/-! ### The slashing-protection store (external service)

Modelled from the spec: an opaque keyed history service reached only
through new / open / read-parameter. new creates a fresh store file
recording the optional slots-per-epoch parameter and is never allowed to
recreate an existing one; open succeeds on an existing store file,
installing the fallback parameter of the caller only when the store has none
set; reading the parameter fails when it is unset. -/

/-- A handle onto an opened slashing-protection store. -/
structure ValidatorHistory where
  storedSlotsPerEpoch : Option Nat

deriving DecidableEq

/-- Errors of the external store service. -/
inductive HistoryErr
  | createExists (p : FsPath)
  | openFailed (p : FsPath)
  | slotsUnset

deriving DecidableEq

/-- Modelled from the spec: ValidatorHistory::new — create a fresh store
file at the path, recording the optional slots-per-epoch parameter;
an existing path is never recreated. -/
def ValidatorHistory.new (fs : FS) (p : FsPath) (param : Option Nat) :
    Except HistoryErr ValidatorHistory × FS :=
  if fs.pathExists p then (Except.error (HistoryErr.createExists p), fs)
  else (Except.ok { storedSlotsPerEpoch := param },
    fs.createFileData p (FileData.slashingDB param) defaultFileMode)

/-- Modelled from the spec: ValidatorHistory::open — open an existing
store; the fallback parameter is installed only when the store has no
slots-per-epoch set. -/
def ValidatorHistory.openStore (fs : FS) (p : FsPath) (fallback : Option Nat) :
    Except HistoryErr ValidatorHistory × FS :=
  match lookupFile fs.files p with
  | some e =>
    match e.data with
    | FileData.slashingDB (some v) => (Except.ok { storedSlotsPerEpoch := some v }, fs)
    | FileData.slashingDB none =>
      (Except.ok { storedSlotsPerEpoch := fallback },
        fs.writeAll p (FileData.slashingDB fallback))
    | FileData.bytes _ => (Except.error (HistoryErr.openFailed p), fs)
  | none => (Except.error (HistoryErr.openFailed p), fs)

/-- ValidatorHistory::slots_per_epoch — read the stored parameter back
from an open handle; fails when unset. -/
def ValidatorHistory.slots_per_epoch (h : ValidatorHistory) : Except HistoryErr Nat :=
  match h.storedSlotsPerEpoch with
  | some v => Except.ok v
  | none => Except.error HistoryErr.slotsUnset

/-! ### Errors

Each constructor stands for one of the descriptive format
messages, carrying the data the message interpolates. -/

inductive Err
  | dirNotExist (p : FsPath)
  | slashingNotFound (p : FsPath)
  | history (e : HistoryErr)
  | votingKeypair (e : Err)
  | keypairFileNotExist (p : FsPath)
  | keypairOpen (p : FsPath)
  | keypairDecode (p : FsPath)
  | eth1FileNotExist (p : FsPath)
  | eth1Open (p : FsPath)
  | eth1HexDecode (p : FsPath)
  | eth1BadStart (bs : Bytes)
  | fullDepositRequiresSpec
  | directoryRequiresVotingKeypair
  | directoryExists (p : FsPath)
  | writeKeypairFilesRequiresVoting
  | writeKeypairFilesRequiresWithdrawal
  | saveKeypairRequiresDirectory
  | keypairFileExists (p : FsPath)
  | eth1RequiresVoting
  | eth1RequiresWithdrawal
  | eth1RequiresAmount
  | eth1RequiresSpec
  | eth1RequiresDirectory
  | eth1Encode
  | eth1FileExists (p : FsPath)
  | slashingDbsRequireDirectory
  | slashingDbCreate (e : HistoryErr)
  | buildRequiresDirectory

deriving DecidableEq

/-! ### The finalized record and the load path -/

/-- The files/objects of one dedicated validator directory. -/
structure ValidatorDirectory where
  directory : FsPath
  voting_keypair : Option Keypair
  withdrawal_keypair : Option Keypair
  deposit_data : Option Bytes
  attestation_slashing_protection : Option FsPath
  block_slashing_protection : Option FsPath
  slots_per_epoch : Option Nat

deriving DecidableEq

/-- load_keypair: read and SSZ-decode a keypair file. -/
def load_keypair (fs : FS) (base_path : FsPath) (fileTag : Bytes) : Except Err Keypair :=
  let path := base_path.joinName (keypair_file fileTag)
  if fs.pathExists path then
    match lookupFile fs.files path with
    | some e =>
      match e.data with
      | FileData.bytes bs =>
        match SszEncodableKeypair.from_ssz_bytes bs with
        | some kp => Except.ok kp.toKeypair
        | none => Except.error (Err.keypairDecode path)
      | FileData.slashingDB _ => Except.error (Err.keypairDecode path)
    | none => Except.error (Err.keypairOpen path)
  else Except.error (Err.keypairFileNotExist path)

/-- load_eth1_deposit_data: read the deposit file, demand the 0x prefix,
hex-decode the rest. -/
def load_eth1_deposit_data (fs : FS) (base_path : FsPath) : Except Err Bytes :=
  let path := base_path.joinName ETH1_DEPOSIT_DATA_FILE
  if fs.pathExists path then
    match lookupFile fs.files path with
    | some e =>
      match e.data with
      | FileData.bytes bs =>
        if bs.take 2 = strBytes ("0x") then
          match hexDecode (bs.drop 2) with
          | some dd => Except.ok dd
          | none => Except.error (Err.eth1HexDecode path)
        else Except.error (Err.eth1BadStart bs)
      | FileData.slashingDB _ => Except.error (Err.eth1Open path)
    | none => Except.error (Err.eth1Open path)
  else Except.error (Err.eth1FileNotExist path)

/-- ValidatorDirectory::load_for_signing. Returns the loaded record and
the file system after the call (opening the block store may install the
fallback parameter). -/
def ValidatorDirectory.load_for_signing (fs : FS) (directory : FsPath)
    (slots_per_epoch : Nat) : Except Err ValidatorDirectory × FS :=
  if fs.pathExists directory then
    let attestation_slashing_protection := directory.joinName ATTESTER_SLASHING_DB
    let block_slashing_protection := directory.joinName BLOCK_PRODUCER_SLASHING_DB
    if fs.pathExists attestation_slashing_protection
        && fs.pathExists block_slashing_protection then
      match ValidatorHistory.openStore fs block_slashing_protection (some slots_per_epoch) with
      | (Except.error e, fs1) => (Except.error (Err.history e), fs1)
      | (Except.ok block_history, fs1) =>
        match block_history.slots_per_epoch with
        | Except.error e => (Except.error (Err.history e), fs1)
        | Except.ok spe =>
          match load_keypair fs1 directory VOTING_KEY_TAG with
          | Except.error e => (Except.error (Err.votingKeypair e), fs1)
          | Except.ok vk =>
            (Except.ok
              { directory := directory
                voting_keypair := some vk
                withdrawal_keypair := (load_keypair fs1 directory WITHDRAWAL_KEY_TAG).toOption
                deposit_data := (load_eth1_deposit_data fs1 directory).toOption
                attestation_slashing_protection := some attestation_slashing_protection
                block_slashing_protection := some block_slashing_protection
                slots_per_epoch := some spe }, fs1)
    else (Except.error (Err.slashingNotFound directory), fs)
  else (Except.error (Err.dirNotExist directory), fs)

/-! ### The builder -/

/-- ValidatorDirectoryBuilder: the step-accumulating in-memory state. -/
structure ValidatorDirectoryBuilder where
  directory : Option FsPath := none
  voting_keypair : Option Keypair := none
  withdrawal_keypair : Option Keypair := none
  amount : Option Nat := none
  deposit_data : Option Bytes := none
  attestation_slashing_protection : Option FsPath := none
  block_slashing_protection : Option FsPath := none
  spec : Option ChainSpec := none
  slots_per_epoch : Option Nat := none

deriving DecidableEq

/-- ValidatorDirectoryBuilder::default. -/
def ValidatorDirectoryBuilder.empty : ValidatorDirectoryBuilder :=
  {}

/-- Builder step spec(spec) (named set_spec here: the field accessor
takes the plain name). -/
def ValidatorDirectoryBuilder.set_spec (b : ValidatorDirectoryBuilder)
    (spec : ChainSpec) : ValidatorDirectoryBuilder :=
  { b with spec := some spec }

/-- Builder step full_deposit_amount: use the maximum effective
balance as the deposit. -/
def ValidatorDirectoryBuilder.full_deposit_amount (b : ValidatorDirectoryBuilder) :
    Except Err ValidatorDirectoryBuilder :=
  match b.spec with
  | none => Except.error Err.fullDepositRequiresSpec
  | some spec => Except.ok { b with amount := some spec.max_effective_balance }

/-- Builder step custom_deposit_amount(gwei). -/
def ValidatorDirectoryBuilder.custom_deposit_amount (b : ValidatorDirectoryBuilder)
    (gwei : Nat) : ValidatorDirectoryBuilder :=
  { b with amount := some gwei }

/-- Builder step thread_random_keypairs. The two keypairs sampled by
Keypair::random are passed explicitly: randomness is an input of the
embedding. -/
def ValidatorDirectoryBuilder.thread_random_keypairs (b : ValidatorDirectoryBuilder)
    (sampledVoting sampledWithdrawal : Keypair) : ValidatorDirectoryBuilder :=
  { b with voting_keypair := some sampledVoting,
           withdrawal_keypair := some sampledWithdrawal }

/-- Builder step slots_per_epoch (named set_slots_per_epoch here: the
field accessor takes the plain name). -/
def ValidatorDirectoryBuilder.set_slots_per_epoch (b : ValidatorDirectoryBuilder)
    (slots_per_epoch : Nat) : ValidatorDirectoryBuilder :=
  { b with slots_per_epoch := some slots_per_epoch }

/-- Builder step insecure_keypairs(index): both keypairs are the
deterministic keypair of the index. -/
def ValidatorDirectoryBuilder.insecure_keypairs (b : ValidatorDirectoryBuilder)
    (index : Nat) : ValidatorDirectoryBuilder :=
  let keypair := generate_deterministic_keypair index
  { b with voting_keypair := some keypair, withdrawal_keypair := some keypair }

/-- Builder step create_directory(base_path). -/
def ValidatorDirectoryBuilder.create_directory (b : ValidatorDirectoryBuilder)
    (base_path : FsPath) (fs : FS) : Except Err ValidatorDirectoryBuilder × FS :=
  match b.voting_keypair with
  | none => (Except.error Err.directoryRequiresVotingKeypair, fs)
  | some voting_keypair =>
    let directory := base_path.joinName (dir_name voting_keypair.pk)
    if fs.pathExists directory then (Except.error (Err.directoryExists directory), fs)
    else (Except.ok { b with directory := some directory }, fs.mkdirAll directory)

/-- save_keypair: refuse an existing path, then create the file, harden
its permissions to owner read/write, and only then write the SSZ
bytes of the keypair. -/
def ValidatorDirectoryBuilder.save_keypair (b : ValidatorDirectoryBuilder)
    (keypair : Keypair) (fileTag : Bytes) (fs : FS) : Except Err Unit × FS :=
  match b.directory with
  | none => (Except.error Err.saveKeypairRequiresDirectory, fs)
  | some directory =>
    let path := directory.joinName (keypair_file fileTag)
    if fs.pathExists path then (Except.error (Err.keypairFileExists path), fs)
    else
      let fs1 := fs.createFile path
      let fs2 := fs1.chmod path (S_IWUSR ||| S_IRUSR)
      let fs3 := fs2.writeAll path
        (FileData.bytes (SszEncodableKeypair.ofKeypair keypair).as_ssz_bytes)
      (Except.ok (), fs3)

/-- Builder step write_keypair_files: persist the voting keypair, then
the withdrawal keypair. -/
def ValidatorDirectoryBuilder.write_keypair_files (b : ValidatorDirectoryBuilder)
    (fs : FS) : Except Err ValidatorDirectoryBuilder × FS :=
  match b.voting_keypair with
  | none => (Except.error Err.writeKeypairFilesRequiresVoting, fs)
  | some voting_keypair =>
    match b.withdrawal_keypair with
    | none => (Except.error Err.writeKeypairFilesRequiresWithdrawal, fs)
    | some withdrawal_keypair =>
      match b.save_keypair voting_keypair VOTING_KEY_TAG fs with
      | (Except.error e, fs1) => (Except.error e, fs1)
      | (Except.ok _, fs1) =>
        match b.save_keypair withdrawal_keypair WITHDRAWAL_KEY_TAG fs1 with
        | (Except.error e, fs2) => (Except.error e, fs2)
        | (Except.ok _, fs2) => (Except.ok b, fs2)

/-- The deposit-transaction bytes write_eth1_data_file assembles and
encodes: withdrawal credentials from the withdrawal public key, a
DepositData with the voting public key, then its signature, then the
external encoding. -/
def eth1TxBytes (voting_keypair withdrawal_keypair : Keypair) (amount : Nat)
    (spec : ChainSpec) : Option Bytes :=
  let withdrawal_credentials :=
    get_withdrawal_credentials withdrawal_keypair.pk spec.bls_withdrawal_prefix_byte
  let deposit_data : DepositData :=
    { pubkey := voting_keypair.pk.bytes
      withdrawal_credentials := withdrawal_credentials
      amount := amount
      signature := emptySignatureBytes }
  let signed := { deposit_data with
    signature := deposit_data.create_signature voting_keypair.sk spec }
  encode_eth1_tx_data signed

/-- Builder step write_eth1_data_file: encode the deposit payload, then
refuse an existing file, then write 0x followed by its hex encoding. -/
def ValidatorDirectoryBuilder.write_eth1_data_file (b : ValidatorDirectoryBuilder)
    (fs : FS) : Except Err ValidatorDirectoryBuilder × FS :=
  match b.voting_keypair with
  | none => (Except.error Err.eth1RequiresVoting, fs)
  | some voting_keypair =>
    match b.withdrawal_keypair with
    | none => (Except.error Err.eth1RequiresWithdrawal, fs)
    | some withdrawal_keypair =>
      match b.amount with
      | none => (Except.error Err.eth1RequiresAmount, fs)
      | some amount =>
        match b.spec with
        | none => (Except.error Err.eth1RequiresSpec, fs)
        | some spec =>
          match b.directory with
          | none => (Except.error Err.eth1RequiresDirectory, fs)
          | some directory =>
            let path := directory.joinName ETH1_DEPOSIT_DATA_FILE
            match eth1TxBytes voting_keypair withdrawal_keypair amount spec with
            | none => (Except.error Err.eth1Encode, fs)
            | some deposit_data =>
              if fs.pathExists path then (Except.error (Err.eth1FileExists path), fs)
              else
                (Except.ok { b with deposit_data := some deposit_data },
                  (fs.createFile path).writeAll path
                    (FileData.bytes (strBytes ("0x") ++ hexEncode deposit_data)))

/-- Builder step create_sqlite_slashing_dbs: create the attestation
store with no parameter and the block store with the builder
slots-per-epoch value. The source joins the directory with the already
absolute block path, which Rust resolves to the block path itself. -/
def ValidatorDirectoryBuilder.create_sqlite_slashing_dbs (b : ValidatorDirectoryBuilder)
    (fs : FS) : Except Err ValidatorDirectoryBuilder × FS :=
  match b.directory with
  | none => (Except.error Err.slashingDbsRequireDirectory, fs)
  | some path =>
    let attestation_path := path.joinName ATTESTER_SLASHING_DB
    let block_path := path.joinName BLOCK_PRODUCER_SLASHING_DB
    let slots_per_epoch := b.slots_per_epoch
    match ValidatorHistory.new fs attestation_path none with
    | (Except.error e, fs1) => (Except.error (Err.slashingDbCreate e), fs1)
    | (Except.ok _, fs1) =>
      match ValidatorHistory.new fs1 (path.joinPath block_path) slots_per_epoch with
      | (Except.error e, fs2) => (Except.error (Err.slashingDbCreate e), fs2)
      | (Except.ok _, fs2) =>
        (Except.ok { b with attestation_slashing_protection := some attestation_path,
                            block_slashing_protection := some block_path }, fs2)

/-- Builder step build: consume the builder, returning the record. -/
def ValidatorDirectoryBuilder.build (b : ValidatorDirectoryBuilder) :
    Except Err ValidatorDirectory :=
  match b.directory with
  | none => Except.error Err.buildRequiresDirectory
  | some directory =>
    Except.ok
      { directory := directory
        voting_keypair := b.voting_keypair
        withdrawal_keypair := b.withdrawal_keypair
        deposit_data := b.deposit_data
        attestation_slashing_protection := b.attestation_slashing_protection
        block_slashing_protection := b.block_slashing_protection
        slots_per_epoch := b.slots_per_epoch }

/-! ### Step-by-step effect of the builder on the file system -/

/-- File-system effect of one successful save_keypair at a path: the
file is created, its mode hardened to owner read/write, and only then
are the key bytes written. -/
def fsAfterSave (fs : FS) (p : FsPath) (keypair : Keypair) : FS :=
  { files :=
      (p, { data := FileData.bytes (SszEncodableKeypair.ofKeypair keypair).as_ssz_bytes,
            mode := S_IWUSR ||| S_IRUSR })
      :: (p, { data := FileData.bytes [], mode := S_IWUSR ||| S_IRUSR })
      :: (p, { data := FileData.bytes [], mode := defaultFileMode })
      :: fs.files,
    dirs := fs.dirs,
    events := fs.events ++ [FSEvent.create p, FSEvent.chmod p (S_IWUSR ||| S_IRUSR),
      FSEvent.write p
        (FileData.bytes (SszEncodableKeypair.ofKeypair keypair).as_ssz_bytes)] }

/-- File-system effect of one successful write_keypair_files: the voting
keypair file, then the withdrawal keypair file. -/
def fsAfterWKF (fs : FS) (pv pw : FsPath) (kv kw : Keypair) : FS :=
  fsAfterSave (fsAfterSave fs pv kv) pw kw

/-- The deposit bytes the (total) model encoder produces. -/
def eth1TxValue (voting_keypair withdrawal_keypair : Keypair) (amount : Nat)
    (spec : ChainSpec) : Bytes :=
  (eth1TxBytes voting_keypair withdrawal_keypair amount spec).getD []

/-- File-system effect of one successful write_eth1_data_file: the file
is created with the default mode and the 0x-prefixed hex string of the
deposit bytes is written. -/
def fsAfterEth1 (fs : FS) (p : FsPath) (deposit_data : Bytes) : FS :=
  { files :=
      (p, { data := FileData.bytes (strBytes ("0x") ++ hexEncode deposit_data),
            mode := defaultFileMode })
      :: (p, { data := FileData.bytes [], mode := defaultFileMode })
      :: fs.files,
    dirs := fs.dirs,
    events := fs.events ++ [FSEvent.create p,
      FSEvent.write p (FileData.bytes (strBytes ("0x") ++ hexEncode deposit_data))] }

/-- File-system effect of one successful create_sqlite_slashing_dbs:
the attestation store is created with no parameter, then the block
store with the slots-per-epoch value of the builder. -/
def fsAfterDbs (fs : FS) (pa pb : FsPath) (slotsParam : Option Nat) : FS :=
  { files :=
      (pb, { data := FileData.slashingDB slotsParam, mode := defaultFileMode })
      :: (pa, { data := FileData.slashingDB none, mode := defaultFileMode })
      :: fs.files,
    dirs := fs.dirs,
    events := fs.events ++ [FSEvent.create pa, FSEvent.create pb] }

/-! ### The full builder pipeline and its round trip -/

/-- The builder pipeline of the source (and of its tests): spec,
slots_per_epoch, deposit amount, keypairs, create_directory,
write_keypair_files, write_eth1_data_file, create_sqlite_slashing_dbs,
build. The keypair set is passed explicitly (covering both the random
and the index-derived generation policies). -/
def runPipeline (kv kw : Keypair) (amount : Nat) (spec : ChainSpec) (spe : Nat)
    (base_path : FsPath) (fs : FS) : Except Err ValidatorDirectory × FS :=
  let b0 := ((((ValidatorDirectoryBuilder.empty.set_spec spec).set_slots_per_epoch
    spe).custom_deposit_amount amount).thread_random_keypairs kv kw)
  match b0.create_directory base_path fs with
  | (Except.error e, fs1) => (Except.error e, fs1)
  | (Except.ok b1, fs1) =>
    match b1.write_keypair_files fs1 with
    | (Except.error e, fs2) => (Except.error e, fs2)
    | (Except.ok b2, fs2) =>
      match b2.write_eth1_data_file fs2 with
      | (Except.error e, fs3) => (Except.error e, fs3)
      | (Except.ok b3, fs3) =>
        match b3.create_sqlite_slashing_dbs fs3 with
        | (Except.error e, fs4) => (Except.error e, fs4)
        | (Except.ok b4, fs4) =>
          match b4.build with
          | Except.error e => (Except.error e, fs4)
          | Except.ok r => (Except.ok r, fs4)

/-- The file system a successful pipeline leaves behind. -/
def pipelineFS (fs : FS) (dir : FsPath) (kv kw : Keypair) (dd : Bytes) (spe : Nat) : FS :=
  fsAfterDbs
    (fsAfterEth1
      (fsAfterWKF (fs.mkdirAll dir)
        (dir.joinName (keypair_file VOTING_KEY_TAG))
        (dir.joinName (keypair_file WITHDRAWAL_KEY_TAG)) kv kw)
      (dir.joinName ETH1_DEPOSIT_DATA_FILE) dd)
    (dir.joinName ATTESTER_SLASHING_DB)
    (dir.joinName BLOCK_PRODUCER_SLASHING_DB) (some spe)

/-- The record a successful pipeline builds. -/
def pipelineRecord (dir : FsPath) (kv kw : Keypair) (dd : Bytes) (spe : Nat) :
    ValidatorDirectory :=
  { directory := dir
    voting_keypair := some kv
    withdrawal_keypair := some kw
    deposit_data := some dd
    attestation_slashing_protection := some (dir.joinName ATTESTER_SLASHING_DB)
    block_slashing_protection := some (dir.joinName BLOCK_PRODUCER_SLASHING_DB)
    slots_per_epoch := some spe }

deriving instance DecidableEq for Except

/-- A concrete file system a load succeeds on: both stores plus a
voting keypair file of 96 zero bytes. -/
def wFs10 : FS :=
  FS.mk
    [([strBytes ("d"), BLOCK_PRODUCER_SLASHING_DB],
      FileEntry.mk (FileData.slashingDB (some 7)) 420),
     ([strBytes ("d"), ATTESTER_SLASHING_DB],
      FileEntry.mk (FileData.slashingDB none) 420),
     ([strBytes ("d"), keypair_file VOTING_KEY_TAG],
      FileEntry.mk (FileData.bytes (List.replicate 96 0)) 384)]
    [[strBytes ("d")]] []

/-- The record that concrete load returns. -/
def wRec10 : ValidatorDirectory :=
  { directory := [strBytes ("d")]
    voting_keypair := some { pk := ⟨List.replicate 48 0⟩, sk := ⟨List.replicate 48 0⟩ }
    withdrawal_keypair := none
    deposit_data := none
    attestation_slashing_protection := some [strBytes ("d"), ATTESTER_SLASHING_DB]
    block_slashing_protection := some [strBytes ("d"), BLOCK_PRODUCER_SLASHING_DB]
    slots_per_epoch := some 7 }

theorem hexDigitVal_hexDigitChar {n : Nat} (h : n < 16) :
    hexDigitVal (hexDigitChar n) = some n := by
  unfold hexDigitChar hexDigitVal
  by_cases h10 : n < 10
  · simp only [if_pos h10]
    rw [if_pos (by omega)]
    exact congrArg some (by omega)
  · simp only [if_neg h10]
    rw [if_neg (by omega), if_pos (by omega)]
    exact congrArg some (by omega)

theorem hexDecode_hexEncode {bs : Bytes} (h : validBytes bs) :
    hexDecode (hexEncode bs) = some bs := by
  induction bs with
  | nil => rfl
  | cons b t ih =>
    have hb : b < 256 := h b (List.mem_cons_self b t)
    have ht : validBytes t := fun x hx => h x (List.mem_cons_of_mem b hx)
    have h1 : b / 16 < 16 := by omega
    have h2 : b % 16 < 16 := by omega
    simp only [hexEncode, hexDecode, hexDigitVal_hexDigitChar h1,
      hexDigitVal_hexDigitChar h2, ih ht]
    congr 2
    omega

theorem hexEncode_injOn {a b : Bytes} (ha : validBytes a) (hb : validBytes b)
    (h : hexEncode a = hexEncode b) : a = b := by
  have := hexDecode_hexEncode ha
  rw [h, hexDecode_hexEncode hb] at this
  exact (Option.some_injective _ this).symm

/-- Every byte emitted by hexEncode is the ASCII code of a lowercase hex
character (a digit or a lowercase letter a-f). -/
theorem hexEncode_lowercase_hex {bs : Bytes} (hv : validBytes bs) {c : Nat}
    (h : c ∈ hexEncode bs) : (48 ≤ c ∧ c ≤ 57) ∨ (97 ≤ c ∧ c ≤ 102) := by
  induction bs with
  | nil => simp [hexEncode] at h
  | cons b t ih =>
    have hb : b < 256 := hv b (List.mem_cons_self b t)
    have ht : validBytes t := fun x hx => hv x (List.mem_cons_of_mem b hx)
    simp only [hexEncode, List.mem_cons] at h
    rcases h with h | h | h
    · subst h
      unfold hexDigitChar
      have h16 : b / 16 < 16 := by omega
      by_cases h10 : b / 16 < 10
      · rw [if_pos h10]; omega
      · rw [if_neg h10]; omega
    · subst h
      unfold hexDigitChar
      have h16 : b % 16 < 16 := Nat.mod_lt _ (by omega)
      by_cases h10 : b % 16 < 10
      · rw [if_pos h10]; omega
      · rw [if_neg h10]; omega
    · exact ih ht h

theorem ssz_keypair_round_trip {kp : Keypair} (h : kp.wf) :
    SszEncodableKeypair.from_ssz_bytes (SszEncodableKeypair.ofKeypair kp).as_ssz_bytes
      = some (SszEncodableKeypair.ofKeypair kp) := by
  obtain ⟨hpk, hsk, -, -⟩ := h
  unfold SszEncodableKeypair.from_ssz_bytes SszEncodableKeypair.as_ssz_bytes
    SszEncodableKeypair.ofKeypair
  rw [List.take_left' hpk, List.drop_left' hpk]
  simp [List.length_append, hpk, hsk]

theorem validBytes_natToLeBytes (w v : Nat) : validBytes (natToLeBytes w v) := by
  induction w generalizing v with
  | zero => intro b hb; simp [natToLeBytes] at hb
  | succ w ih =>
    intro b hb
    simp only [natToLeBytes, List.mem_cons] at hb
    rcases hb with h | h
    · omega
    · exact ih (v / 256) b h

theorem validBytes_append {a b : Bytes} (ha : validBytes a) (hb : validBytes b) :
    validBytes (a ++ b) := by
  intro x hx
  rcases List.mem_append.mp hx with h | h
  · exact ha x h
  · exact hb x h

theorem validBytes_map_mod (bs : Bytes) : validBytes (bs.map (fun b => b % 256)) := by
  intro x hx
  obtain ⟨b, -, rfl⟩ := List.mem_map.mp hx
  omega

theorem validBytes_encode_eth1_tx_data {d : DepositData} {bs : Bytes}
    (h : encode_eth1_tx_data d = some bs) : validBytes bs := by
  unfold encode_eth1_tx_data at h
  cases h
  exact validBytes_append
    (validBytes_append
      (validBytes_append (validBytes_map_mod _) (validBytes_map_mod _))
      (validBytes_natToLeBytes 8 d.amount))
    (validBytes_map_mod _)

/-! ### Basic facts about paths and lookups -/

theorem lookupFile_cons_eq {p : FsPath} {e : FileEntry} {t : List (FsPath × FileEntry)} :
    lookupFile ((p, e) :: t) p = some e := by
  simp [lookupFile]

theorem lookupFile_cons_ne {q p : FsPath} {e : FileEntry} {t : List (FsPath × FileEntry)}
    (h : q ≠ p) : lookupFile ((q, e) :: t) p = lookupFile t p := by
  simp [lookupFile, h]

theorem pathMem_cons_ne {q p : FsPath} {t : List FsPath} (h : q ≠ p) :
    pathMem p (q :: t) = pathMem p t := by
  simp [pathMem, h]

theorem joinName_ne_of_ne {p : FsPath} {a b : Bytes} (h : a ≠ b) :
    p.joinName a ≠ p.joinName b := by
  intro hc
  exact h (List.singleton_injective (List.append_cancel_left hc))

theorem ne_joinName (p : FsPath) (a : Bytes) : p ≠ p.joinName a := by
  intro h
  have := congrArg List.length h
  simp [FsPath.joinName] at this

theorem joinName_inj {p : FsPath} {a b : Bytes} (h : p.joinName a = p.joinName b) :
    a = b :=
  List.singleton_injective (List.append_cancel_left h)

/-- The five file names a validator directory can hold are pairwise
distinct. -/
theorem fileNames_distinct :
    keypair_file VOTING_KEY_TAG ≠ keypair_file WITHDRAWAL_KEY_TAG ∧
    keypair_file VOTING_KEY_TAG ≠ ETH1_DEPOSIT_DATA_FILE ∧
    keypair_file VOTING_KEY_TAG ≠ ATTESTER_SLASHING_DB ∧
    keypair_file VOTING_KEY_TAG ≠ BLOCK_PRODUCER_SLASHING_DB ∧
    keypair_file WITHDRAWAL_KEY_TAG ≠ ETH1_DEPOSIT_DATA_FILE ∧
    keypair_file WITHDRAWAL_KEY_TAG ≠ ATTESTER_SLASHING_DB ∧
    keypair_file WITHDRAWAL_KEY_TAG ≠ BLOCK_PRODUCER_SLASHING_DB ∧
    ETH1_DEPOSIT_DATA_FILE ≠ ATTESTER_SLASHING_DB ∧
    ETH1_DEPOSIT_DATA_FILE ≠ BLOCK_PRODUCER_SLASHING_DB ∧
    ATTESTER_SLASHING_DB ≠ BLOCK_PRODUCER_SLASHING_DB := by
  decide

theorem save_keypair_eq (b : ValidatorDirectoryBuilder) (keypair : Keypair)
    (fileTag : Bytes) (fs : FS) {d : FsPath} (hdir : b.directory = some d)
    (hfresh : fs.pathExists (d.joinName (keypair_file fileTag)) = false) :
    b.save_keypair keypair fileTag fs
      = (Except.ok (), fsAfterSave fs (d.joinName (keypair_file fileTag)) keypair) := by
  unfold ValidatorDirectoryBuilder.save_keypair
  rw [hdir]
  simp only [hfresh, Bool.false_eq_true, if_false, FS.createFile, FS.createFileData,
    FS.chmod, FS.writeAll, lookupFile_cons_eq, fsAfterSave]
  simp [List.append_assoc]

theorem pathExists_fsAfterSave_ne {fs : FS} {p q : FsPath} {kp : Keypair}
    (h : p ≠ q) : (fsAfterSave fs p kp).pathExists q = fs.pathExists q := by
  simp [fsAfterSave, FS.pathExists, lookupFile_cons_ne h]

theorem write_keypair_files_eq (b : ValidatorDirectoryBuilder) (fs : FS)
    {kv kw : Keypair} {d : FsPath}
    (hv : b.voting_keypair = some kv) (hw : b.withdrawal_keypair = some kw)
    (hdir : b.directory = some d)
    (hfv : fs.pathExists (d.joinName (keypair_file VOTING_KEY_TAG)) = false)
    (hfw : fs.pathExists (d.joinName (keypair_file WITHDRAWAL_KEY_TAG)) = false) :
    b.write_keypair_files fs
      = (Except.ok b, fsAfterWKF fs (d.joinName (keypair_file VOTING_KEY_TAG))
          (d.joinName (keypair_file WITHDRAWAL_KEY_TAG)) kv kw) := by
  have hne : d.joinName (keypair_file VOTING_KEY_TAG)
      ≠ d.joinName (keypair_file WITHDRAWAL_KEY_TAG) :=
    joinName_ne_of_ne fileNames_distinct.1
  have hfw1 : (fsAfterSave fs (d.joinName (keypair_file VOTING_KEY_TAG)) kv).pathExists
      (d.joinName (keypair_file WITHDRAWAL_KEY_TAG)) = false := by
    rw [pathExists_fsAfterSave_ne hne]
    exact hfw
  unfold ValidatorDirectoryBuilder.write_keypair_files
  rw [hv, hw]
  dsimp only
  rw [save_keypair_eq b kv VOTING_KEY_TAG fs hdir hfv]
  dsimp only
  rw [save_keypair_eq b kw WITHDRAWAL_KEY_TAG _ hdir hfw1]
  rfl

theorem eth1TxBytes_eq (kv kw : Keypair) (amount : Nat) (spec : ChainSpec) :
    eth1TxBytes kv kw amount spec = some (eth1TxValue kv kw amount spec) :=
  rfl

theorem validBytes_eth1TxValue (kv kw : Keypair) (amount : Nat) (spec : ChainSpec) :
    validBytes (eth1TxValue kv kw amount spec) :=
  validBytes_encode_eth1_tx_data (eth1TxBytes_eq kv kw amount spec)

theorem write_eth1_data_file_eq (b : ValidatorDirectoryBuilder) (fs : FS)
    {kv kw : Keypair} {amount : Nat} {spec : ChainSpec} {d : FsPath}
    (hv : b.voting_keypair = some kv) (hw : b.withdrawal_keypair = some kw)
    (ha : b.amount = some amount) (hs : b.spec = some spec)
    (hdir : b.directory = some d)
    (hfresh : fs.pathExists (d.joinName ETH1_DEPOSIT_DATA_FILE) = false) :
    b.write_eth1_data_file fs
      = (Except.ok { b with deposit_data := some (eth1TxValue kv kw amount spec) },
          fsAfterEth1 fs (d.joinName ETH1_DEPOSIT_DATA_FILE)
            (eth1TxValue kv kw amount spec)) := by
  unfold ValidatorDirectoryBuilder.write_eth1_data_file
  rw [hv, hw, ha, hs, hdir]
  dsimp only
  rw [eth1TxBytes_eq]
  simp only [hfresh, Bool.false_eq_true, if_false, FS.createFile, FS.createFileData,
    FS.writeAll, lookupFile_cons_eq, fsAfterEth1]
  simp [List.append_assoc]

theorem create_sqlite_slashing_dbs_eq (b : ValidatorDirectoryBuilder) (fs : FS)
    {d : FsPath} (hdir : b.directory = some d)
    (hfa : fs.pathExists (d.joinName ATTESTER_SLASHING_DB) = false)
    (hfb : fs.pathExists (d.joinName BLOCK_PRODUCER_SLASHING_DB) = false) :
    b.create_sqlite_slashing_dbs fs
      = (Except.ok { b with
            attestation_slashing_protection := some (d.joinName ATTESTER_SLASHING_DB),
            block_slashing_protection := some (d.joinName BLOCK_PRODUCER_SLASHING_DB) },
          fsAfterDbs fs (d.joinName ATTESTER_SLASHING_DB)
            (d.joinName BLOCK_PRODUCER_SLASHING_DB) b.slots_per_epoch) := by
  have hne : d.joinName ATTESTER_SLASHING_DB ≠ d.joinName BLOCK_PRODUCER_SLASHING_DB :=
    joinName_ne_of_ne fileNames_distinct.2.2.2.2.2.2.2.2.2
  unfold ValidatorDirectoryBuilder.create_sqlite_slashing_dbs
  rw [hdir]
  dsimp only
  unfold ValidatorHistory.new
  simp only [hfa, Bool.false_eq_true, if_false]
  dsimp only [FsPath.joinPath]
  have hfb1 : (fs.createFileData (d.joinName ATTESTER_SLASHING_DB)
      (FileData.slashingDB none) defaultFileMode).pathExists
      (d.joinName BLOCK_PRODUCER_SLASHING_DB) = false := by
    simp only [FS.createFileData, FS.pathExists, lookupFile_cons_ne hne]
    exact hfb
  rw [hfb1]
  simp [FS.createFileData, fsAfterDbs, List.append_assoc]

/-- File-system effect of create_directory. -/
theorem create_directory_eq (b : ValidatorDirectoryBuilder) (base_path : FsPath)
    (fs : FS) {kv : Keypair} (hv : b.voting_keypair = some kv)
    (hfresh : fs.pathExists (base_path.joinName (dir_name kv.pk)) = false) :
    b.create_directory base_path fs
      = (Except.ok { b with directory := some (base_path.joinName (dir_name kv.pk)) },
          fs.mkdirAll (base_path.joinName (dir_name kv.pk))) := by
  unfold ValidatorDirectoryBuilder.create_directory
  rw [hv]
  dsimp only
  simp only [hfresh, Bool.false_eq_true, if_false]

theorem pathExists_mkdirAll_ne {fs : FS} {p q : FsPath} (h : p ≠ q) :
    (fs.mkdirAll p).pathExists q = fs.pathExists q := by
  simp [FS.mkdirAll, FS.pathExists, pathMem_cons_ne h]

theorem pathExists_fsAfterEth1_ne {fs : FS} {p q : FsPath} {dd : Bytes} (h : p ≠ q) :
    (fsAfterEth1 fs p dd).pathExists q = fs.pathExists q := by
  simp [fsAfterEth1, FS.pathExists, lookupFile_cons_ne h]

theorem pathExists_fsAfterWKF_ne {fs : FS} {pv pw q : FsPath} {kv kw : Keypair}
    (h1 : pv ≠ q) (h2 : pw ≠ q) :
    (fsAfterWKF fs pv pw kv kw).pathExists q = fs.pathExists q := by
  unfold fsAfterWKF
  rw [pathExists_fsAfterSave_ne h2, pathExists_fsAfterSave_ne h1]

/-- Successful pipeline run: the exact record and file system produced,
given a well-placed (fresh) target directory. -/
theorem runPipeline_eq (kv kw : Keypair) (amount : Nat) (spec : ChainSpec)
    (spe : Nat) (base_path : FsPath) (fs : FS)
    (hdirF : fs.pathExists (base_path.joinName (dir_name kv.pk)) = false)
    (hfv : fs.pathExists ((base_path.joinName (dir_name kv.pk)).joinName
      (keypair_file VOTING_KEY_TAG)) = false)
    (hfw : fs.pathExists ((base_path.joinName (dir_name kv.pk)).joinName
      (keypair_file WITHDRAWAL_KEY_TAG)) = false)
    (hfe : fs.pathExists ((base_path.joinName (dir_name kv.pk)).joinName
      ETH1_DEPOSIT_DATA_FILE) = false)
    (hfa : fs.pathExists ((base_path.joinName (dir_name kv.pk)).joinName
      ATTESTER_SLASHING_DB) = false)
    (hfb : fs.pathExists ((base_path.joinName (dir_name kv.pk)).joinName
      BLOCK_PRODUCER_SLASHING_DB) = false) :
    runPipeline kv kw amount spec spe base_path fs
      = (Except.ok (pipelineRecord (base_path.joinName (dir_name kv.pk)) kv kw
            (eth1TxValue kv kw amount spec) spe),
         pipelineFS fs (base_path.joinName (dir_name kv.pk)) kv kw
            (eth1TxValue kv kw amount spec) spe) := by
  set dir := base_path.joinName (dir_name kv.pk) with hdirDef
  have hNeV : dir ≠ dir.joinName (keypair_file VOTING_KEY_TAG) := ne_joinName _ _
  have hNeW : dir ≠ dir.joinName (keypair_file WITHDRAWAL_KEY_TAG) := ne_joinName _ _
  have hNeE : dir ≠ dir.joinName ETH1_DEPOSIT_DATA_FILE := ne_joinName _ _
  have hNeA : dir ≠ dir.joinName ATTESTER_SLASHING_DB := ne_joinName _ _
  have hNeB : dir ≠ dir.joinName BLOCK_PRODUCER_SLASHING_DB := ne_joinName _ _
  have hVW : dir.joinName (keypair_file VOTING_KEY_TAG)
      ≠ dir.joinName (keypair_file WITHDRAWAL_KEY_TAG) :=
    joinName_ne_of_ne fileNames_distinct.1
  have hVE : dir.joinName (keypair_file VOTING_KEY_TAG)
      ≠ dir.joinName ETH1_DEPOSIT_DATA_FILE :=
    joinName_ne_of_ne fileNames_distinct.2.1
  have hVA : dir.joinName (keypair_file VOTING_KEY_TAG)
      ≠ dir.joinName ATTESTER_SLASHING_DB :=
    joinName_ne_of_ne fileNames_distinct.2.2.1
  have hVB : dir.joinName (keypair_file VOTING_KEY_TAG)
      ≠ dir.joinName BLOCK_PRODUCER_SLASHING_DB :=
    joinName_ne_of_ne fileNames_distinct.2.2.2.1
  have hWE : dir.joinName (keypair_file WITHDRAWAL_KEY_TAG)
      ≠ dir.joinName ETH1_DEPOSIT_DATA_FILE :=
    joinName_ne_of_ne fileNames_distinct.2.2.2.2.1
  have hWA : dir.joinName (keypair_file WITHDRAWAL_KEY_TAG)
      ≠ dir.joinName ATTESTER_SLASHING_DB :=
    joinName_ne_of_ne fileNames_distinct.2.2.2.2.2.1
  have hWB : dir.joinName (keypair_file WITHDRAWAL_KEY_TAG)
      ≠ dir.joinName BLOCK_PRODUCER_SLASHING_DB :=
    joinName_ne_of_ne fileNames_distinct.2.2.2.2.2.2.1
  have hEA : dir.joinName ETH1_DEPOSIT_DATA_FILE ≠ dir.joinName ATTESTER_SLASHING_DB :=
    joinName_ne_of_ne fileNames_distinct.2.2.2.2.2.2.2.1
  have hEB : dir.joinName ETH1_DEPOSIT_DATA_FILE
      ≠ dir.joinName BLOCK_PRODUCER_SLASHING_DB :=
    joinName_ne_of_ne fileNames_distinct.2.2.2.2.2.2.2.2.1
  unfold runPipeline
  dsimp only
  rw [create_directory_eq ((((ValidatorDirectoryBuilder.empty.set_spec
    spec).set_slots_per_epoch spe).custom_deposit_amount amount).thread_random_keypairs
    kv kw) base_path fs rfl hdirF]
  dsimp only
  rw [write_keypair_files_eq _ _ rfl rfl rfl
    (by rw [pathExists_mkdirAll_ne hNeV]; exact hfv)
    (by rw [pathExists_mkdirAll_ne hNeW]; exact hfw)]
  dsimp only
  rw [write_eth1_data_file_eq _ _ rfl rfl rfl rfl rfl
    (by rw [pathExists_fsAfterWKF_ne hVE hWE, pathExists_mkdirAll_ne hNeE]; exact hfe)]
  dsimp only
  rw [create_sqlite_slashing_dbs_eq _ _ rfl
    (by rw [pathExists_fsAfterEth1_ne hEA, pathExists_fsAfterWKF_ne hVA hWA,
      pathExists_mkdirAll_ne hNeA]; exact hfa)
    (by rw [pathExists_fsAfterEth1_ne hEB, pathExists_fsAfterWKF_ne hVB hWB,
      pathExists_mkdirAll_ne hNeB]; exact hfb)]
  dsimp only
  unfold ValidatorDirectoryBuilder.build
  dsimp only
  rfl

/-- Loading the file system a successful pipeline left behind yields
exactly the record the pipeline built, and leaves the file system
unchanged. -/
theorem load_pipelineFS (fs : FS) (dir : FsPath) (kv kw : Keypair) (dd : Bytes)
    (spe : Nat) (hkv : kv.wf) (hkw : kw.wf) (hdd : validBytes dd) :
    ValidatorDirectory.load_for_signing (pipelineFS fs dir kv kw dd spe) dir spe
      = (Except.ok (pipelineRecord dir kv kw dd spe), pipelineFS fs dir kv kw dd spe) := by
  have hBA : dir.joinName BLOCK_PRODUCER_SLASHING_DB ≠ dir.joinName ATTESTER_SLASHING_DB :=
    (joinName_ne_of_ne fileNames_distinct.2.2.2.2.2.2.2.2.2).symm
  have hBE : dir.joinName BLOCK_PRODUCER_SLASHING_DB ≠ dir.joinName ETH1_DEPOSIT_DATA_FILE :=
    (joinName_ne_of_ne fileNames_distinct.2.2.2.2.2.2.2.2.1).symm
  have hBW : dir.joinName BLOCK_PRODUCER_SLASHING_DB
      ≠ dir.joinName (keypair_file WITHDRAWAL_KEY_TAG) :=
    (joinName_ne_of_ne fileNames_distinct.2.2.2.2.2.2.1).symm
  have hBV : dir.joinName BLOCK_PRODUCER_SLASHING_DB
      ≠ dir.joinName (keypair_file VOTING_KEY_TAG) :=
    (joinName_ne_of_ne fileNames_distinct.2.2.2.1).symm
  have hAE : dir.joinName ATTESTER_SLASHING_DB ≠ dir.joinName ETH1_DEPOSIT_DATA_FILE :=
    (joinName_ne_of_ne fileNames_distinct.2.2.2.2.2.2.2.1).symm
  have hAW : dir.joinName ATTESTER_SLASHING_DB
      ≠ dir.joinName (keypair_file WITHDRAWAL_KEY_TAG) :=
    (joinName_ne_of_ne fileNames_distinct.2.2.2.2.2.1).symm
  have hAV : dir.joinName ATTESTER_SLASHING_DB
      ≠ dir.joinName (keypair_file VOTING_KEY_TAG) :=
    (joinName_ne_of_ne fileNames_distinct.2.2.1).symm
  have hEW : dir.joinName ETH1_DEPOSIT_DATA_FILE
      ≠ dir.joinName (keypair_file WITHDRAWAL_KEY_TAG) :=
    (joinName_ne_of_ne fileNames_distinct.2.2.2.2.1).symm
  have hEV : dir.joinName ETH1_DEPOSIT_DATA_FILE
      ≠ dir.joinName (keypair_file VOTING_KEY_TAG) :=
    (joinName_ne_of_ne fileNames_distinct.2.1).symm
  have hWV : dir.joinName (keypair_file WITHDRAWAL_KEY_TAG)
      ≠ dir.joinName (keypair_file VOTING_KEY_TAG) :=
    (joinName_ne_of_ne fileNames_distinct.1).symm
  have hfiles : (pipelineFS fs dir kv kw dd spe).files =
      (dir.joinName BLOCK_PRODUCER_SLASHING_DB,
        FileEntry.mk (FileData.slashingDB (some spe)) defaultFileMode)
      :: (dir.joinName ATTESTER_SLASHING_DB,
        FileEntry.mk (FileData.slashingDB none) defaultFileMode)
      :: (dir.joinName ETH1_DEPOSIT_DATA_FILE,
        FileEntry.mk (FileData.bytes (strBytes ("0x") ++ hexEncode dd)) defaultFileMode)
      :: (dir.joinName ETH1_DEPOSIT_DATA_FILE,
        FileEntry.mk (FileData.bytes []) defaultFileMode)
      :: (dir.joinName (keypair_file WITHDRAWAL_KEY_TAG),
        FileEntry.mk (FileData.bytes (SszEncodableKeypair.ofKeypair kw).as_ssz_bytes)
          (S_IWUSR ||| S_IRUSR))
      :: (dir.joinName (keypair_file WITHDRAWAL_KEY_TAG),
        FileEntry.mk (FileData.bytes []) (S_IWUSR ||| S_IRUSR))
      :: (dir.joinName (keypair_file WITHDRAWAL_KEY_TAG),
        FileEntry.mk (FileData.bytes []) defaultFileMode)
      :: (dir.joinName (keypair_file VOTING_KEY_TAG),
        FileEntry.mk (FileData.bytes (SszEncodableKeypair.ofKeypair kv).as_ssz_bytes)
          (S_IWUSR ||| S_IRUSR))
      :: (dir.joinName (keypair_file VOTING_KEY_TAG),
        FileEntry.mk (FileData.bytes []) (S_IWUSR ||| S_IRUSR))
      :: (dir.joinName (keypair_file VOTING_KEY_TAG),
        FileEntry.mk (FileData.bytes []) defaultFileMode)
      :: fs.files := rfl
  have hdirs : (pipelineFS fs dir kv kw dd spe).dirs = dir :: fs.dirs := rfl
  have hLpb : lookupFile (pipelineFS fs dir kv kw dd spe).files
      (dir.joinName BLOCK_PRODUCER_SLASHING_DB)
      = some (FileEntry.mk (FileData.slashingDB (some spe)) defaultFileMode) := by
    rw [hfiles]
    exact lookupFile_cons_eq
  have hLpa : lookupFile (pipelineFS fs dir kv kw dd spe).files
      (dir.joinName ATTESTER_SLASHING_DB)
      = some (FileEntry.mk (FileData.slashingDB none) defaultFileMode) := by
    rw [hfiles, lookupFile_cons_ne hBA]
    exact lookupFile_cons_eq
  have hLpe : lookupFile (pipelineFS fs dir kv kw dd spe).files
      (dir.joinName ETH1_DEPOSIT_DATA_FILE)
      = some (FileEntry.mk (FileData.bytes (strBytes ("0x") ++ hexEncode dd))
          defaultFileMode) := by
    rw [hfiles, lookupFile_cons_ne hBE, lookupFile_cons_ne hAE]
    exact lookupFile_cons_eq
  have hLpw : lookupFile (pipelineFS fs dir kv kw dd spe).files
      (dir.joinName (keypair_file WITHDRAWAL_KEY_TAG))
      = some (FileEntry.mk
          (FileData.bytes (SszEncodableKeypair.ofKeypair kw).as_ssz_bytes)
          (S_IWUSR ||| S_IRUSR)) := by
    rw [hfiles, lookupFile_cons_ne hBW, lookupFile_cons_ne hAW, lookupFile_cons_ne hEW,
      lookupFile_cons_ne hEW]
    exact lookupFile_cons_eq
  have hLpv : lookupFile (pipelineFS fs dir kv kw dd spe).files
      (dir.joinName (keypair_file VOTING_KEY_TAG))
      = some (FileEntry.mk
          (FileData.bytes (SszEncodableKeypair.ofKeypair kv).as_ssz_bytes)
          (S_IWUSR ||| S_IRUSR)) := by
    rw [hfiles, lookupFile_cons_ne hBV, lookupFile_cons_ne hAV, lookupFile_cons_ne hEV,
      lookupFile_cons_ne hEV, lookupFile_cons_ne hWV, lookupFile_cons_ne hWV,
      lookupFile_cons_ne hWV]
    exact lookupFile_cons_eq
  have hExDir : (pipelineFS fs dir kv kw dd spe).pathExists dir = true := by
    simp [FS.pathExists, hdirs, pathMem]
  have hExPa : (pipelineFS fs dir kv kw dd spe).pathExists
      (dir.joinName ATTESTER_SLASHING_DB) = true := by
    simp [FS.pathExists, hLpa]
  have hExPb : (pipelineFS fs dir kv kw dd spe).pathExists
      (dir.joinName BLOCK_PRODUCER_SLASHING_DB) = true := by
    simp [FS.pathExists, hLpb]
  have hExPv : (pipelineFS fs dir kv kw dd spe).pathExists
      (dir.joinName (keypair_file VOTING_KEY_TAG)) = true := by
    simp [FS.pathExists, hLpv]
  have hExPw : (pipelineFS fs dir kv kw dd spe).pathExists
      (dir.joinName (keypair_file WITHDRAWAL_KEY_TAG)) = true := by
    simp [FS.pathExists, hLpw]
  have hExPe : (pipelineFS fs dir kv kw dd spe).pathExists
      (dir.joinName ETH1_DEPOSIT_DATA_FILE) = true := by
    simp [FS.pathExists, hLpe]
  have hLoadV : load_keypair (pipelineFS fs dir kv kw dd spe) dir VOTING_KEY_TAG
      = Except.ok kv := by
    unfold load_keypair
    dsimp only
    rw [hExPv]
    simp only [if_true]
    rw [hLpv]
    dsimp only
    rw [ssz_keypair_round_trip hkv]
    rfl
  have hLoadW : load_keypair (pipelineFS fs dir kv kw dd spe) dir WITHDRAWAL_KEY_TAG
      = Except.ok kw := by
    unfold load_keypair
    dsimp only
    rw [hExPw]
    simp only [if_true]
    rw [hLpw]
    dsimp only
    rw [ssz_keypair_round_trip hkw]
    rfl
  have h02 : (strBytes ("0x")).length = 2 := rfl
  have hLoadE : load_eth1_deposit_data (pipelineFS fs dir kv kw dd spe) dir
      = Except.ok dd := by
    unfold load_eth1_deposit_data
    dsimp only
    rw [hExPe]
    simp only [if_true]
    rw [hLpe]
    dsimp only
    rw [List.take_left' h02, List.drop_left' h02]
    simp only [if_pos rfl]
    rw [hexDecode_hexEncode hdd]
    rfl
  unfold ValidatorDirectory.load_for_signing
  dsimp only
  rw [hExDir, hExPa, hExPb]
  simp only [Bool.and_self, if_true]
  unfold ValidatorHistory.openStore
  rw [hLpb]
  dsimp only
  unfold ValidatorHistory.slots_per_epoch
  dsimp only
  rw [hLoadV]
  dsimp only
  rw [hLoadW, hLoadE]
  rfl

/-! ### The claims -/

/-- C1: for every keypair set (randomly generated or deterministically
derived) and deposit amount, running the builder pipeline (spec,
slots_per_epoch, deposit amount, keypairs, create_directory,
write_keypair_files, write_eth1_data_file, create_sqlite_slashing_dbs,
build) and then calling load_for_signing on the resulting directory with
the same slots_per_epoch yields a record equal to the built record:
same voting keypair, same withdrawal keypair presence and value, same
deposit-data bytes, same two safety-store paths, and same
slots_per_epoch. -/
theorem C1_build_load_round_trip (kv kw : Keypair) (amount : Nat) (spec : ChainSpec)
    (spe : Nat) (base_path : FsPath) (fs : FS)
    (hkv : kv.wf) (hkw : kw.wf)
    (hdirF : fs.pathExists (base_path.joinName (dir_name kv.pk)) = false)
    (hfv : fs.pathExists ((base_path.joinName (dir_name kv.pk)).joinName
      (keypair_file VOTING_KEY_TAG)) = false)
    (hfw : fs.pathExists ((base_path.joinName (dir_name kv.pk)).joinName
      (keypair_file WITHDRAWAL_KEY_TAG)) = false)
    (hfe : fs.pathExists ((base_path.joinName (dir_name kv.pk)).joinName
      ETH1_DEPOSIT_DATA_FILE) = false)
    (hfa : fs.pathExists ((base_path.joinName (dir_name kv.pk)).joinName
      ATTESTER_SLASHING_DB) = false)
    (hfb : fs.pathExists ((base_path.joinName (dir_name kv.pk)).joinName
      BLOCK_PRODUCER_SLASHING_DB) = false) :
    ∃ r fs', runPipeline kv kw amount spec spe base_path fs = (Except.ok r, fs')
      ∧ ValidatorDirectory.load_for_signing fs' r.directory spe
          = (Except.ok r, fs') := by
  refine ⟨pipelineRecord (base_path.joinName (dir_name kv.pk)) kv kw
    (eth1TxValue kv kw amount spec) spe,
    pipelineFS fs (base_path.joinName (dir_name kv.pk)) kv kw
      (eth1TxValue kv kw amount spec) spe,
    runPipeline_eq kv kw amount spec spe base_path fs hdirF hfv hfw hfe hfa hfb, ?_⟩
  exact load_pipelineFS fs _ kv kw _ spe hkv hkw
    (validBytes_eth1TxValue kv kw amount spec)

/-- Witness for C1 at a concrete input: the deterministic keypairs of
indices 1 and 2, amount 32, a two-field spec, 8 slots per epoch, an
empty file system. -/
theorem C1_build_load_round_trip_witness :
    ∃ r fs', runPipeline (generate_deterministic_keypair 1)
        (generate_deterministic_keypair 2) 32
        { max_effective_balance := 32, bls_withdrawal_prefix_byte := 0 } 8
        [strBytes ("validators")] FS.empty = (Except.ok r, fs')
      ∧ ValidatorDirectory.load_for_signing fs' r.directory 8
          = (Except.ok r, fs') :=
  C1_build_load_round_trip (generate_deterministic_keypair 1)
    (generate_deterministic_keypair 2) 32
    { max_effective_balance := 32, bls_withdrawal_prefix_byte := 0 } 8
    [strBytes ("validators")] FS.empty
    (by decide) (by decide) rfl rfl rfl rfl rfl rfl

/-- C2: for an existing directory, if either of the two safety-store
files is absent, load_for_signing returns the descriptive
slashing-protection-not-found error and leaves the state unchanged,
returning no record. -/
theorem C2_missing_store_rejected (fs : FS) (dir : FsPath) (spe : Nat)
    (hd : fs.pathExists dir = true)
    (h : fs.pathExists (dir.joinName ATTESTER_SLASHING_DB) = false
      ∨ fs.pathExists (dir.joinName BLOCK_PRODUCER_SLASHING_DB) = false) :
    ValidatorDirectory.load_for_signing fs dir spe
      = (Except.error (Err.slashingNotFound dir), fs) := by
  have hand : (fs.pathExists (dir.joinName ATTESTER_SLASHING_DB)
      && fs.pathExists (dir.joinName BLOCK_PRODUCER_SLASHING_DB)) = false := by
    rcases h with h | h
    · simp [h]
    · simp [h]
  unfold ValidatorDirectory.load_for_signing
  dsimp only
  rw [hd]
  simp only [if_true]
  rw [hand]
  simp only [Bool.false_eq_true, if_false]

/-- Witness for C2: a file system holding only the directory itself. -/
theorem C2_missing_store_rejected_witness :
    ValidatorDirectory.load_for_signing
        (FS.mk [] [[strBytes ("d")]] []) [strBytes ("d")] 8
      = (Except.error (Err.slashingNotFound [strBytes ("d")]),
         FS.mk [] [[strBytes ("d")]] []) :=
  C2_missing_store_rejected (FS.mk [] [[strBytes ("d")]] []) [strBytes ("d")] 8
    (by decide) (Or.inl (by decide))

/-- C3: a second write attempt to an existing key file (save_keypair)
or deposit-data file (write_eth1_data_file) is a hard error that leaves
the file system — and so the contents of the existing file — unchanged. -/
theorem C3_second_write_hard_error (b : ValidatorDirectoryBuilder) (fs : FS)
    (keypair : Keypair) (fileTag : Bytes) (d : FsPath)
    (kv kw : Keypair) (amount : Nat) (spec : ChainSpec)
    (hdir : b.directory = some d) :
    (fs.pathExists (d.joinName (keypair_file fileTag)) = true →
      b.save_keypair keypair fileTag fs
        = (Except.error (Err.keypairFileExists (d.joinName (keypair_file fileTag))), fs))
    ∧ (b.voting_keypair = some kv → b.withdrawal_keypair = some kw →
      b.amount = some amount → b.spec = some spec →
      fs.pathExists (d.joinName ETH1_DEPOSIT_DATA_FILE) = true →
      b.write_eth1_data_file fs
        = (Except.error (Err.eth1FileExists (d.joinName ETH1_DEPOSIT_DATA_FILE)), fs)) := by
  constructor
  · intro hex
    unfold ValidatorDirectoryBuilder.save_keypair
    rw [hdir]
    dsimp only
    rw [hex]
    simp only [if_true]
  · intro hv hw ha hs hex
    unfold ValidatorDirectoryBuilder.write_eth1_data_file
    rw [hv, hw, ha, hs, hdir]
    dsimp only
    rw [eth1TxBytes_eq]
    dsimp only
    rw [hex]
    simp only [if_true]

/-- Witness for C3: a builder pointed at a directory that already holds
both a voting key file and a deposit-data file. -/
theorem C3_second_write_hard_error_witness :
    (ValidatorDirectoryBuilder.mk (some [strBytes ("d")])
        (some (generate_deterministic_keypair 1))
        (some (generate_deterministic_keypair 2)) (some 32) none none none
        (some { max_effective_balance := 32, bls_withdrawal_prefix_byte := 0 })
        (some 8)).save_keypair (generate_deterministic_keypair 1) VOTING_KEY_TAG
        (FS.mk [([strBytes ("d"), keypair_file VOTING_KEY_TAG],
          FileEntry.mk (FileData.bytes [1]) 384),
          ([strBytes ("d"), ETH1_DEPOSIT_DATA_FILE],
          FileEntry.mk (FileData.bytes [2]) 420)] [[strBytes ("d")]] [])
      = (Except.error (Err.keypairFileExists [strBytes ("d"),
          keypair_file VOTING_KEY_TAG]),
        FS.mk [([strBytes ("d"), keypair_file VOTING_KEY_TAG],
          FileEntry.mk (FileData.bytes [1]) 384),
          ([strBytes ("d"), ETH1_DEPOSIT_DATA_FILE],
          FileEntry.mk (FileData.bytes [2]) 420)] [[strBytes ("d")]] [])
    ∧ (ValidatorDirectoryBuilder.mk (some [strBytes ("d")])
        (some (generate_deterministic_keypair 1))
        (some (generate_deterministic_keypair 2)) (some 32) none none none
        (some { max_effective_balance := 32, bls_withdrawal_prefix_byte := 0 })
        (some 8)).write_eth1_data_file
        (FS.mk [([strBytes ("d"), keypair_file VOTING_KEY_TAG],
          FileEntry.mk (FileData.bytes [1]) 384),
          ([strBytes ("d"), ETH1_DEPOSIT_DATA_FILE],
          FileEntry.mk (FileData.bytes [2]) 420)] [[strBytes ("d")]] [])
      = (Except.error (Err.eth1FileExists [strBytes ("d"), ETH1_DEPOSIT_DATA_FILE]),
        FS.mk [([strBytes ("d"), keypair_file VOTING_KEY_TAG],
          FileEntry.mk (FileData.bytes [1]) 384),
          ([strBytes ("d"), ETH1_DEPOSIT_DATA_FILE],
          FileEntry.mk (FileData.bytes [2]) 420)] [[strBytes ("d")]] []) :=
  ⟨(C3_second_write_hard_error _ _ (generate_deterministic_keypair 1) VOTING_KEY_TAG
      [strBytes ("d")] (generate_deterministic_keypair 1)
      (generate_deterministic_keypair 2) 32
      { max_effective_balance := 32, bls_withdrawal_prefix_byte := 0 } rfl).1
      (by decide),
   (C3_second_write_hard_error _ _ (generate_deterministic_keypair 1) VOTING_KEY_TAG
      [strBytes ("d")] (generate_deterministic_keypair 1)
      (generate_deterministic_keypair 2) 32
      { max_effective_balance := 32, bls_withdrawal_prefix_byte := 0 } rfl).2
      rfl rfl rfl rfl (by decide)⟩

/-- C4: after write_keypair_files succeeds, both key files carry exactly
the owner-only read/write mode S_IRUSR | S_IWUSR (0o600, all
group/other and execute bits cleared), and the event trace shows the
chmod happening inside the same write operation, after creating the
empty file and before the secret bytes are written. -/
theorem C4_keypair_file_permissions (b : ValidatorDirectoryBuilder) (fs : FS)
    (kv kw : Keypair) (d : FsPath)
    (hv : b.voting_keypair = some kv) (hw : b.withdrawal_keypair = some kw)
    (hdir : b.directory = some d)
    (hfv : fs.pathExists (d.joinName (keypair_file VOTING_KEY_TAG)) = false)
    (hfw : fs.pathExists (d.joinName (keypair_file WITHDRAWAL_KEY_TAG)) = false) :
    ∃ fs', b.write_keypair_files fs = (Except.ok b, fs')
      ∧ lookupFile fs'.files (d.joinName (keypair_file VOTING_KEY_TAG))
          = some (FileEntry.mk
            (FileData.bytes (SszEncodableKeypair.ofKeypair kv).as_ssz_bytes)
            (S_IWUSR ||| S_IRUSR))
      ∧ lookupFile fs'.files (d.joinName (keypair_file WITHDRAWAL_KEY_TAG))
          = some (FileEntry.mk
            (FileData.bytes (SszEncodableKeypair.ofKeypair kw).as_ssz_bytes)
            (S_IWUSR ||| S_IRUSR))
      ∧ (S_IWUSR ||| S_IRUSR) = 0o600
      ∧ fs'.events = fs.events
          ++ [FSEvent.create (d.joinName (keypair_file VOTING_KEY_TAG)),
              FSEvent.chmod (d.joinName (keypair_file VOTING_KEY_TAG)) (S_IWUSR ||| S_IRUSR),
              FSEvent.write (d.joinName (keypair_file VOTING_KEY_TAG))
                (FileData.bytes (SszEncodableKeypair.ofKeypair kv).as_ssz_bytes),
              FSEvent.create (d.joinName (keypair_file WITHDRAWAL_KEY_TAG)),
              FSEvent.chmod (d.joinName (keypair_file WITHDRAWAL_KEY_TAG)) (S_IWUSR ||| S_IRUSR),
              FSEvent.write (d.joinName (keypair_file WITHDRAWAL_KEY_TAG))
                (FileData.bytes (SszEncodableKeypair.ofKeypair kw).as_ssz_bytes)] := by
  have hWV : d.joinName (keypair_file WITHDRAWAL_KEY_TAG)
      ≠ d.joinName (keypair_file VOTING_KEY_TAG) :=
    (joinName_ne_of_ne fileNames_distinct.1).symm
  refine ⟨fsAfterWKF fs (d.joinName (keypair_file VOTING_KEY_TAG))
    (d.joinName (keypair_file WITHDRAWAL_KEY_TAG)) kv kw,
    write_keypair_files_eq b fs hv hw hdir hfv hfw, ?_, ?_, by decide, ?_⟩
  · unfold fsAfterWKF fsAfterSave
    dsimp only
    rw [lookupFile_cons_ne hWV, lookupFile_cons_ne hWV, lookupFile_cons_ne hWV]
    exact lookupFile_cons_eq
  · unfold fsAfterWKF fsAfterSave
    dsimp only
    exact lookupFile_cons_eq
  · unfold fsAfterWKF fsAfterSave
    dsimp only
    simp [List.append_assoc]

/-- Witness for C4: a fresh builder over an empty file system. -/
theorem C4_keypair_file_permissions_witness :
    ∃ fs', (ValidatorDirectoryBuilder.mk (some [strBytes ("d")])
        (some (generate_deterministic_keypair 1))
        (some (generate_deterministic_keypair 2)) none none none none none
        none).write_keypair_files FS.empty
        = (Except.ok (ValidatorDirectoryBuilder.mk (some [strBytes ("d")])
            (some (generate_deterministic_keypair 1))
            (some (generate_deterministic_keypair 2)) none none none none none
            none), fs')
      ∧ lookupFile fs'.files [strBytes ("d"), keypair_file VOTING_KEY_TAG]
          = some (FileEntry.mk
            (FileData.bytes (SszEncodableKeypair.ofKeypair
              (generate_deterministic_keypair 1)).as_ssz_bytes)
            (S_IWUSR ||| S_IRUSR))
      ∧ lookupFile fs'.files [strBytes ("d"), keypair_file WITHDRAWAL_KEY_TAG]
          = some (FileEntry.mk
            (FileData.bytes (SszEncodableKeypair.ofKeypair
              (generate_deterministic_keypair 2)).as_ssz_bytes)
            (S_IWUSR ||| S_IRUSR))
      ∧ (S_IWUSR ||| S_IRUSR) = 0o600
      ∧ fs'.events = FS.empty.events
          ++ [FSEvent.create [strBytes ("d"), keypair_file VOTING_KEY_TAG],
              FSEvent.chmod [strBytes ("d"), keypair_file VOTING_KEY_TAG]
                (S_IWUSR ||| S_IRUSR),
              FSEvent.write [strBytes ("d"), keypair_file VOTING_KEY_TAG]
                (FileData.bytes (SszEncodableKeypair.ofKeypair
                  (generate_deterministic_keypair 1)).as_ssz_bytes),
              FSEvent.create [strBytes ("d"), keypair_file WITHDRAWAL_KEY_TAG],
              FSEvent.chmod [strBytes ("d"), keypair_file WITHDRAWAL_KEY_TAG]
                (S_IWUSR ||| S_IRUSR),
              FSEvent.write [strBytes ("d"), keypair_file WITHDRAWAL_KEY_TAG]
                (FileData.bytes (SszEncodableKeypair.ofKeypair
                  (generate_deterministic_keypair 2)).as_ssz_bytes)] :=
  C4_keypair_file_permissions _ FS.empty (generate_deterministic_keypair 1)
    (generate_deterministic_keypair 2) [strBytes ("d")] rfl rfl rfl rfl rfl

/-- C5: the slots-per-epoch read back from the block-proposal safety
store is the one stored in the loaded record — the stored value wins
over the caller-supplied argument, which only serves as fallback when
the store has none set (Option.getD) — and when the block store cannot
be read back (its file is not a readable store), the whole load fails. -/
theorem C5_slots_per_epoch_authoritative (fs : FS) (dir : FsPath) (spe : Nat) :
    (∀ (stored : Option Nat) (m : Nat) (r : ValidatorDirectory),
      lookupFile fs.files (dir.joinName BLOCK_PRODUCER_SLASHING_DB)
        = some (FileEntry.mk (FileData.slashingDB stored) m) →
      (ValidatorDirectory.load_for_signing fs dir spe).1 = Except.ok r →
      r.slots_per_epoch = some (stored.getD spe))
    ∧ (∀ (bs : Bytes) (m : Nat),
      fs.pathExists dir = true →
      fs.pathExists (dir.joinName ATTESTER_SLASHING_DB) = true →
      fs.pathExists (dir.joinName BLOCK_PRODUCER_SLASHING_DB) = true →
      lookupFile fs.files (dir.joinName BLOCK_PRODUCER_SLASHING_DB)
        = some (FileEntry.mk (FileData.bytes bs) m) →
      (ValidatorDirectory.load_for_signing fs dir spe).1
        = Except.error (Err.history (HistoryErr.openFailed
            (dir.joinName BLOCK_PRODUCER_SLASHING_DB)))) := by
  constructor
  · intro stored m r hlook hok
    unfold ValidatorDirectory.load_for_signing at hok
    cases hd : fs.pathExists dir with
    | false =>
      rw [hd] at hok
      simp at hok
    | true =>
      rw [hd] at hok
      simp only [if_true] at hok
      cases hab : (fs.pathExists (dir.joinName ATTESTER_SLASHING_DB)
          && fs.pathExists (dir.joinName BLOCK_PRODUCER_SLASHING_DB)) with
      | false =>
        rw [hab] at hok
        simp at hok
      | true =>
        rw [hab] at hok
        simp only [if_true] at hok
        unfold ValidatorHistory.openStore at hok
        rw [hlook] at hok
        cases stored with
        | some v =>
          dsimp only at hok
          unfold ValidatorHistory.slots_per_epoch at hok
          dsimp only at hok
          cases hlk : load_keypair fs dir VOTING_KEY_TAG with
          | error e =>
            rw [hlk] at hok
            simp at hok
          | ok vk =>
            rw [hlk] at hok
            dsimp only at hok
            cases hok
            rfl
        | none =>
          dsimp only at hok
          unfold ValidatorHistory.slots_per_epoch at hok
          dsimp only at hok
          cases hlk : load_keypair (fs.writeAll
              (dir.joinName BLOCK_PRODUCER_SLASHING_DB)
              (FileData.slashingDB (some spe))) dir VOTING_KEY_TAG with
          | error e =>
            rw [hlk] at hok
            simp at hok
          | ok vk =>
            rw [hlk] at hok
            dsimp only at hok
            cases hok
            rfl
  · intro bs m hd ha hb hlook
    unfold ValidatorDirectory.load_for_signing
    dsimp only
    rw [hd]
    simp only [if_true]
    rw [ha, hb]
    simp only [Bool.and_self, if_true]
    unfold ValidatorHistory.openStore
    rw [hlook]

/-- Witness for C5: a store holding 7 is authoritative over the
caller-supplied 5, and a corrupt block store fails the load. -/
theorem C5_slots_per_epoch_authoritative_witness :
    ((ValidatorDirectory.load_for_signing (FS.mk
        [([strBytes ("d"), BLOCK_PRODUCER_SLASHING_DB],
          FileEntry.mk (FileData.slashingDB (some 7)) 420),
         ([strBytes ("d"), ATTESTER_SLASHING_DB],
          FileEntry.mk (FileData.slashingDB none) 420),
         ([strBytes ("d"), keypair_file VOTING_KEY_TAG],
          FileEntry.mk (FileData.bytes (List.replicate 96 0)) 384)]
        [[strBytes ("d")]] []) [strBytes ("d")] 5).1
      = Except.ok
        { directory := [strBytes ("d")]
          voting_keypair := some { pk := ⟨List.replicate 48 0⟩, sk := ⟨List.replicate 48 0⟩ }
          withdrawal_keypair := none
          deposit_data := none
          attestation_slashing_protection := some [strBytes ("d"), ATTESTER_SLASHING_DB]
          block_slashing_protection := some [strBytes ("d"), BLOCK_PRODUCER_SLASHING_DB]
          slots_per_epoch := some 7 })
    ∧ ({ directory := [strBytes ("d")]
         voting_keypair := some ({ pk := ⟨List.replicate 48 0⟩, sk := ⟨List.replicate 48 0⟩ } : Keypair)
         withdrawal_keypair := none
         deposit_data := none
         attestation_slashing_protection := some [strBytes ("d"), ATTESTER_SLASHING_DB]
         block_slashing_protection := some [strBytes ("d"), BLOCK_PRODUCER_SLASHING_DB]
         slots_per_epoch := some 7 : ValidatorDirectory }).slots_per_epoch
        = some ((some 7).getD 5) := by
  refine ⟨by decide, ?_⟩
  exact (C5_slots_per_epoch_authoritative (FS.mk
        [([strBytes ("d"), BLOCK_PRODUCER_SLASHING_DB],
          FileEntry.mk (FileData.slashingDB (some 7)) 420),
         ([strBytes ("d"), ATTESTER_SLASHING_DB],
          FileEntry.mk (FileData.slashingDB none) 420),
         ([strBytes ("d"), keypair_file VOTING_KEY_TAG],
          FileEntry.mk (FileData.bytes (List.replicate 96 0)) 384)]
        [[strBytes ("d")]] []) [strBytes ("d")] 5).1 (some 7) 420 _ (by decide) (by decide)

/-- C6: the directory name is the deterministic function 0x ++ hex of
the voting public key bytes; two distinct (well-formed) voting public
keys never collide into the same name; and create_directory over an
existing directory is rejected without creating anything. -/
theorem C6_dir_name_identity :
    (∀ pk : PublicKey, dir_name pk = strBytes ("0x") ++ hexEncode pk.as_ssz_bytes)
    ∧ (∀ pk1 pk2 : PublicKey, validBytes pk1.bytes → validBytes pk2.bytes →
      dir_name pk1 = dir_name pk2 → pk1 = pk2)
    ∧ (∀ (b : ValidatorDirectoryBuilder) (base_path : FsPath) (fs : FS) (kp : Keypair),
      b.voting_keypair = some kp →
      fs.pathExists (base_path.joinName (dir_name kp.pk)) = true →
      b.create_directory base_path fs
        = (Except.error (Err.directoryExists (base_path.joinName (dir_name kp.pk))), fs)) := by
  refine ⟨fun pk => rfl, ?_, ?_⟩
  · intro pk1 pk2 h1 h2 h
    unfold dir_name PublicKey.as_ssz_bytes at h
    have := hexEncode_injOn h1 h2 (List.append_cancel_left h)
    cases pk1
    cases pk2
    simpa using this
  · intro b base_path fs kp hv hex
    unfold ValidatorDirectoryBuilder.create_directory
    rw [hv]
    dsimp only
    rw [hex]
    simp only [if_true]

/-- Witness for C6: two concrete distinct one-byte keys, and a builder
aimed at an already existing directory. -/
theorem C6_dir_name_identity_witness :
    (dir_name ⟨[0]⟩ = strBytes ("0x") ++ hexEncode [0])
    ∧ (dir_name ⟨[0]⟩ = dir_name ⟨[0]⟩ → (⟨[0]⟩ : PublicKey) = ⟨[0]⟩)
    ∧ ((ValidatorDirectoryBuilder.mk none
        (some (generate_deterministic_keypair 1)) none none none none none none
        none).create_directory [strBytes ("v")]
        (FS.mk [] [[strBytes ("v"),
          dir_name (generate_deterministic_keypair 1).pk]] [])
      = (Except.error (Err.directoryExists [strBytes ("v"),
          dir_name (generate_deterministic_keypair 1).pk]),
        FS.mk [] [[strBytes ("v"),
          dir_name (generate_deterministic_keypair 1).pk]] [])) :=
  ⟨C6_dir_name_identity.1 ⟨[0]⟩,
   C6_dir_name_identity.2.1 ⟨[0]⟩ ⟨[0]⟩ (by decide) (by decide),
   C6_dir_name_identity.2.2 _ [strBytes ("v")] _ (generate_deterministic_keypair 1)
     rfl (by decide)⟩

/-- C7: a successfully written deposit-data file consists of the two
ASCII bytes of 0x followed only by lowercase hex characters encoding
the deposit payload; loading it back recovers exactly the encoded
bytes; and loading any plain file whose content does not begin with the
exact 0x prefix is the hard String-did-not-start-with-0x failure. -/
theorem C7_eth1_file_format (b : ValidatorDirectoryBuilder) (fs : FS)
    (kv kw : Keypair) (amount : Nat) (spec : ChainSpec) (d : FsPath)
    (hv : b.voting_keypair = some kv) (hw : b.withdrawal_keypair = some kw)
    (ha : b.amount = some amount) (hs : b.spec = some spec)
    (hdir : b.directory = some d)
    (hfresh : fs.pathExists (d.joinName ETH1_DEPOSIT_DATA_FILE) = false) :
    ∃ fs', b.write_eth1_data_file fs
        = (Except.ok { b with deposit_data := some (eth1TxValue kv kw amount spec) }, fs')
      ∧ lookupFile fs'.files (d.joinName ETH1_DEPOSIT_DATA_FILE)
          = some (FileEntry.mk (FileData.bytes
              (strBytes ("0x") ++ hexEncode (eth1TxValue kv kw amount spec)))
              defaultFileMode)
      ∧ (∀ c ∈ hexEncode (eth1TxValue kv kw amount spec),
          (48 ≤ c ∧ c ≤ 57) ∨ (97 ≤ c ∧ c ≤ 102))
      ∧ load_eth1_deposit_data fs' d = Except.ok (eth1TxValue kv kw amount spec)
      ∧ (∀ (fs2 : FS) (dir2 : FsPath) (bs : Bytes) (m : Nat),
          fs2.pathExists (dir2.joinName ETH1_DEPOSIT_DATA_FILE) = true →
          lookupFile fs2.files (dir2.joinName ETH1_DEPOSIT_DATA_FILE)
            = some (FileEntry.mk (FileData.bytes bs) m) →
          bs.take 2 ≠ strBytes ("0x") →
          load_eth1_deposit_data fs2 dir2 = Except.error (Err.eth1BadStart bs)) := by
  have hdd : validBytes (eth1TxValue kv kw amount spec) :=
    validBytes_eth1TxValue kv kw amount spec
  have h02 : (strBytes ("0x")).length = 2 := rfl
  refine ⟨fsAfterEth1 fs (d.joinName ETH1_DEPOSIT_DATA_FILE)
      (eth1TxValue kv kw amount spec),
    write_eth1_data_file_eq b fs hv hw ha hs hdir hfresh, ?_, ?_, ?_, ?_⟩
  · unfold fsAfterEth1
    dsimp only
    exact lookupFile_cons_eq
  · intro c hc
    exact hexEncode_lowercase_hex hdd hc
  · have hLpe : lookupFile (fsAfterEth1 fs (d.joinName ETH1_DEPOSIT_DATA_FILE)
        (eth1TxValue kv kw amount spec)).files (d.joinName ETH1_DEPOSIT_DATA_FILE)
        = some (FileEntry.mk (FileData.bytes
            (strBytes ("0x") ++ hexEncode (eth1TxValue kv kw amount spec)))
            defaultFileMode) := by
      unfold fsAfterEth1
      dsimp only
      exact lookupFile_cons_eq
    have hExPe : (fsAfterEth1 fs (d.joinName ETH1_DEPOSIT_DATA_FILE)
        (eth1TxValue kv kw amount spec)).pathExists
        (d.joinName ETH1_DEPOSIT_DATA_FILE) = true := by
      simp [FS.pathExists, hLpe]
    unfold load_eth1_deposit_data
    dsimp only
    rw [hExPe]
    simp only [if_true]
    rw [hLpe]
    dsimp only
    rw [List.take_left' h02, List.drop_left' h02]
    simp only [if_pos rfl]
    rw [hexDecode_hexEncode hdd]
    rfl
  · intro fs2 dir2 bs m hex hlook hne
    unfold load_eth1_deposit_data
    dsimp only
    rw [hex]
    simp only [if_true]
    rw [hlook]
    dsimp only
    rw [if_neg hne]

/-- Witness for C7: a fresh builder writing over an empty file system,
and a file whose content begins with the ASCII bytes of 1x. -/
theorem C7_eth1_file_format_witness :
    ∃ fs', (ValidatorDirectoryBuilder.mk (some [strBytes ("d")])
        (some (generate_deterministic_keypair 1))
        (some (generate_deterministic_keypair 2)) (some 32) none none none
        (some { max_effective_balance := 32, bls_withdrawal_prefix_byte := 0 })
        (some 8)).write_eth1_data_file FS.empty
        = (Except.ok { ValidatorDirectoryBuilder.mk (some [strBytes ("d")])
            (some (generate_deterministic_keypair 1))
            (some (generate_deterministic_keypair 2)) (some 32) none none none
            (some { max_effective_balance := 32, bls_withdrawal_prefix_byte := 0 })
            (some 8) with
            deposit_data := some (eth1TxValue (generate_deterministic_keypair 1)
              (generate_deterministic_keypair 2) 32
              { max_effective_balance := 32, bls_withdrawal_prefix_byte := 0 }) }, fs')
      ∧ lookupFile fs'.files [strBytes ("d"), ETH1_DEPOSIT_DATA_FILE]
          = some (FileEntry.mk (FileData.bytes
              (strBytes ("0x") ++ hexEncode (eth1TxValue (generate_deterministic_keypair 1)
                (generate_deterministic_keypair 2) 32
                { max_effective_balance := 32, bls_withdrawal_prefix_byte := 0 })))
              defaultFileMode)
      ∧ (∀ c ∈ hexEncode (eth1TxValue (generate_deterministic_keypair 1)
            (generate_deterministic_keypair 2) 32
            { max_effective_balance := 32, bls_withdrawal_prefix_byte := 0 }),
          (48 ≤ c ∧ c ≤ 57) ∨ (97 ≤ c ∧ c ≤ 102))
      ∧ load_eth1_deposit_data fs' [strBytes ("d")]
          = Except.ok (eth1TxValue (generate_deterministic_keypair 1)
              (generate_deterministic_keypair 2) 32
              { max_effective_balance := 32, bls_withdrawal_prefix_byte := 0 })
      ∧ (∀ (fs2 : FS) (dir2 : FsPath) (bs : Bytes) (m : Nat),
          fs2.pathExists (dir2.joinName ETH1_DEPOSIT_DATA_FILE) = true →
          lookupFile fs2.files (dir2.joinName ETH1_DEPOSIT_DATA_FILE)
            = some (FileEntry.mk (FileData.bytes bs) m) →
          bs.take 2 ≠ strBytes ("0x") →
          load_eth1_deposit_data fs2 dir2 = Except.error (Err.eth1BadStart bs)) :=
  C7_eth1_file_format _ FS.empty (generate_deterministic_keypair 1)
    (generate_deterministic_keypair 2) 32
    { max_effective_balance := 32, bls_withdrawal_prefix_byte := 0 }
    [strBytes ("d")] rfl rfl rfl rfl rfl rfl

/-- C8: with the safety stores in place, a failure to load or decode
the voting keypair fails the whole load, while failures to load or
decode the withdrawal keypair and the deposit-data file are tolerated:
the load succeeds with those fields unset. -/
theorem C8_voting_required_rest_optional (fs : FS) (dir : FsPath) (spe v m : Nat)
    (hd : fs.pathExists dir = true)
    (ha : fs.pathExists (dir.joinName ATTESTER_SLASHING_DB) = true)
    (hb : fs.pathExists (dir.joinName BLOCK_PRODUCER_SLASHING_DB) = true)
    (hlook : lookupFile fs.files (dir.joinName BLOCK_PRODUCER_SLASHING_DB)
      = some (FileEntry.mk (FileData.slashingDB (some v)) m)) :
    (∀ e, load_keypair fs dir VOTING_KEY_TAG = Except.error e →
      (ValidatorDirectory.load_for_signing fs dir spe).1
        = Except.error (Err.votingKeypair e))
    ∧ (∀ vk ew ee, load_keypair fs dir VOTING_KEY_TAG = Except.ok vk →
      load_keypair fs dir WITHDRAWAL_KEY_TAG = Except.error ew →
      load_eth1_deposit_data fs dir = Except.error ee →
      (ValidatorDirectory.load_for_signing fs dir spe).1
        = Except.ok
          { directory := dir
            voting_keypair := some vk
            withdrawal_keypair := none
            deposit_data := none
            attestation_slashing_protection := some (dir.joinName ATTESTER_SLASHING_DB)
            block_slashing_protection := some (dir.joinName BLOCK_PRODUCER_SLASHING_DB)
            slots_per_epoch := some v }) := by
  constructor
  · intro e hlk
    unfold ValidatorDirectory.load_for_signing
    dsimp only
    rw [hd]
    simp only [if_true]
    rw [ha, hb]
    simp only [Bool.and_self, if_true]
    unfold ValidatorHistory.openStore
    rw [hlook]
    dsimp only
    unfold ValidatorHistory.slots_per_epoch
    dsimp only
    rw [hlk]
  · intro vk ew ee hlk hlw hle
    unfold ValidatorDirectory.load_for_signing
    dsimp only
    rw [hd]
    simp only [if_true]
    rw [ha, hb]
    simp only [Bool.and_self, if_true]
    unfold ValidatorHistory.openStore
    rw [hlook]
    dsimp only
    unfold ValidatorHistory.slots_per_epoch
    dsimp only
    rw [hlk]
    dsimp only
    rw [hlw, hle]
    rfl

/-- Witness for C8: a directory holding only the two stores (voting
absence is fatal), then one also holding the voting file (withdrawal
and deposit absence tolerated). -/
theorem C8_voting_required_rest_optional_witness :
    ((ValidatorDirectory.load_for_signing (FS.mk
        [([strBytes ("d"), BLOCK_PRODUCER_SLASHING_DB],
          FileEntry.mk (FileData.slashingDB (some 7)) 420),
         ([strBytes ("d"), ATTESTER_SLASHING_DB],
          FileEntry.mk (FileData.slashingDB none) 420)]
        [[strBytes ("d")]] []) [strBytes ("d")] 5).1
      = Except.error (Err.votingKeypair (Err.keypairFileNotExist
          [strBytes ("d"), keypair_file VOTING_KEY_TAG])))
    ∧ ((ValidatorDirectory.load_for_signing (FS.mk
        [([strBytes ("d"), BLOCK_PRODUCER_SLASHING_DB],
          FileEntry.mk (FileData.slashingDB (some 7)) 420),
         ([strBytes ("d"), ATTESTER_SLASHING_DB],
          FileEntry.mk (FileData.slashingDB none) 420),
         ([strBytes ("d"), keypair_file VOTING_KEY_TAG],
          FileEntry.mk (FileData.bytes (List.replicate 96 0)) 384)]
        [[strBytes ("d")]] []) [strBytes ("d")] 5).1
      = Except.ok
        { directory := [strBytes ("d")]
          voting_keypair := some { pk := ⟨List.replicate 48 0⟩, sk := ⟨List.replicate 48 0⟩ }
          withdrawal_keypair := none
          deposit_data := none
          attestation_slashing_protection := some [strBytes ("d"), ATTESTER_SLASHING_DB]
          block_slashing_protection := some [strBytes ("d"), BLOCK_PRODUCER_SLASHING_DB]
          slots_per_epoch := some 7 }) :=
  ⟨(C8_voting_required_rest_optional (FS.mk
        [([strBytes ("d"), BLOCK_PRODUCER_SLASHING_DB],
          FileEntry.mk (FileData.slashingDB (some 7)) 420),
         ([strBytes ("d"), ATTESTER_SLASHING_DB],
          FileEntry.mk (FileData.slashingDB none) 420)]
        [[strBytes ("d")]] []) [strBytes ("d")] 5 7 420 (by decide) (by decide)
        (by decide) (by decide)).1 _ (by decide),
   (C8_voting_required_rest_optional (FS.mk
        [([strBytes ("d"), BLOCK_PRODUCER_SLASHING_DB],
          FileEntry.mk (FileData.slashingDB (some 7)) 420),
         ([strBytes ("d"), ATTESTER_SLASHING_DB],
          FileEntry.mk (FileData.slashingDB none) 420),
         ([strBytes ("d"), keypair_file VOTING_KEY_TAG],
          FileEntry.mk (FileData.bytes (List.replicate 96 0)) 384)]
        [[strBytes ("d")]] []) [strBytes ("d")] 5 7 420 (by decide) (by decide)
        (by decide) (by decide)).2
        { pk := ⟨List.replicate 48 0⟩, sk := ⟨List.replicate 48 0⟩ }
        (Err.keypairFileNotExist [strBytes ("d"), keypair_file WITHDRAWAL_KEY_TAG])
        (Err.eth1FileNotExist [strBytes ("d"), ETH1_DEPOSIT_DATA_FILE])
        (by decide) (by decide) (by decide)⟩

/-- C9: two builder runs using insecure_keypairs with the same index
set identical voting and withdrawal keypairs, each equal to the
deterministic keypair of that index, regardless of any other builder
state (in particular of different target directories). -/
theorem C9_insecure_keypairs_deterministic (b1 b2 : ValidatorDirectoryBuilder)
    (index : Nat) :
    (b1.insecure_keypairs index).voting_keypair
        = some (generate_deterministic_keypair index)
    ∧ (b1.insecure_keypairs index).withdrawal_keypair
        = some (generate_deterministic_keypair index)
    ∧ (b1.insecure_keypairs index).voting_keypair
        = (b2.insecure_keypairs index).voting_keypair
    ∧ (b1.insecure_keypairs index).withdrawal_keypair
        = (b2.insecure_keypairs index).withdrawal_keypair :=
  ⟨rfl, rfl, rfl, rfl⟩

/-- C10: a record load_for_signing returns always has its voting
keypair, both safety-store paths and slots-per-epoch set, and only the
withdrawal keypair and deposit data can be unset; build, in contrast,
can finalize a record with every field except the directory unset. -/
theorem C10_loaded_record_always_complete :
    (∀ (fs fs' : FS) (dir : FsPath) (spe : Nat) (r : ValidatorDirectory),
      ValidatorDirectory.load_for_signing fs dir spe = (Except.ok r, fs') →
      r.voting_keypair.isSome = true
        ∧ r.attestation_slashing_protection.isSome = true
        ∧ r.block_slashing_protection.isSome = true
        ∧ r.slots_per_epoch.isSome = true)
    ∧ (∃ (b : ValidatorDirectoryBuilder) (r : ValidatorDirectory),
      b.build = Except.ok r
        ∧ r.voting_keypair = none ∧ r.withdrawal_keypair = none
        ∧ r.deposit_data = none ∧ r.attestation_slashing_protection = none
        ∧ r.block_slashing_protection = none ∧ r.slots_per_epoch = none) := by
  constructor
  · intro fs fs' dir spe r hok
    unfold ValidatorDirectory.load_for_signing at hok
    cases hd : fs.pathExists dir with
    | false =>
      rw [hd] at hok
      simp at hok
    | true =>
      rw [hd] at hok
      simp only [if_true] at hok
      cases hab : (fs.pathExists (dir.joinName ATTESTER_SLASHING_DB)
          && fs.pathExists (dir.joinName BLOCK_PRODUCER_SLASHING_DB)) with
      | false =>
        rw [hab] at hok
        simp at hok
      | true =>
        rw [hab] at hok
        simp only [if_true] at hok
        cases hop : ValidatorHistory.openStore fs
            (dir.joinName BLOCK_PRODUCER_SLASHING_DB) (some spe) with
        | mk res fs1 =>
          rw [hop] at hok
          cases res with
          | error e =>
            simp at hok
          | ok bh =>
            dsimp only at hok
            cases hsp : bh.slots_per_epoch with
            | error e =>
              rw [hsp] at hok
              simp at hok
            | ok spe2 =>
              rw [hsp] at hok
              dsimp only at hok
              cases hlk : load_keypair fs1 dir VOTING_KEY_TAG with
              | error e =>
                rw [hlk] at hok
                simp at hok
              | ok vk =>
                rw [hlk] at hok
                dsimp only at hok
                cases hok
                exact ⟨rfl, rfl, rfl, rfl⟩
  · exact ⟨ValidatorDirectoryBuilder.mk (some [strBytes ("d")]) none none none
      none none none none none, _, rfl, rfl, rfl, rfl, rfl, rfl, rfl⟩

/-- Witness for C10: a concrete successful load has all four required
fields set. -/
theorem C10_loaded_record_always_complete_witness :
    ValidatorDirectory.load_for_signing wFs10 [strBytes ("d")] 5
        = (Except.ok wRec10, wFs10)
    ∧ (wRec10.voting_keypair.isSome = true
      ∧ wRec10.attestation_slashing_protection.isSome = true
      ∧ wRec10.block_slashing_protection.isSome = true
      ∧ wRec10.slots_per_epoch.isSome = true) := by
  refine ⟨by decide, ?_⟩
  exact C10_loaded_record_always_complete.1 wFs10 wFs10 [strBytes ("d")] 5 wRec10
    (by decide)
